import Mathlib

/-!
Shallow embedding of the `roadgraph` traffic simulator
(`roadgraph/simulator/{config,traffic_light,vehicle,road_network,simulation}.py`).

Python floats are modelled as real numbers (`ℝ`); `math.sqrt` is `Real.sqrt`.
Node identifiers are `Nat`; a directed road is a pair of node identifiers.
Python object references to vehicles are modelled by storing each vehicle
record once, in `Simulation.vehicles`, and keeping only vehicle identifiers
in the per-lane membership lists of the road network; lookups resolve the
identifier through the store.  Operations that raise in Python are either
given an explicit error result (`Except`) or, where the raising branch is
unreachable for the well-formed states the theorems quantify over, return
the state unchanged (each such branch is marked with a comment).
-/

noncomputable section

namespace RoadGraph

/-- `VehicleDefault.STOP_THRESHOLD` from `config.py`. -/
def STOP_THRESHOLD : ℝ := 0.2

/-- `VehicleDefault.INTERSECTION_DETECTION_DISTANCE` from `config.py`. -/
def INTERSECTION_DETECTION_DISTANCE : ℝ := 20

/-- `SimulationDefault.STOP_LINE_OFFSET` from `config.py`. -/
def STOP_LINE_OFFSET : ℝ := 2

/-- `IDMDefault.DELTA` from `config.py` (the exponent 4.0, used as `x ** delta`). -/
def IDM_DELTA : ℕ := 4

/-- `LightState` from `traffic_light.py`. -/
inductive LightState
  | RED
  | YELLOW
  | GREEN
deriving DecidableEq

/-- `Phase` from `traffic_light.py`: the set of directed roads that are green
together (the Python `set` is modelled as a list queried by membership). -/
structure Phase where
  green_roads : List (Nat × Nat)
deriving DecidableEq

/-- `Phase.is_green`. -/
def Phase.is_green (p : Phase) (start_node_id end_node_id : Nat) : Bool :=
  decide ((start_node_id, end_node_id) ∈ p.green_roads)

/-- `TrafficLight` from `traffic_light.py` (constructor fields and mutable state). -/
structure TrafficLight where
  intersection_id : Nat
  phases : List Phase
  green_time : ℝ
  yellow_time : ℝ
  min_green_time : ℝ
  current_phase_index : Nat
  time_in_phase : ℝ
  state : LightState
  transitioning : Bool
  next_phase_index : Option Nat

/-- `TrafficLight.__init__`: starts in phase 0, GREEN, not transitioning. -/
def TrafficLight.init (intersection_id : Nat) (phases : List Phase)
    (green_time yellow_time min_green_time : ℝ) : TrafficLight :=
  { intersection_id := intersection_id
    phases := phases
    green_time := green_time
    yellow_time := yellow_time
    min_green_time := min_green_time
    current_phase_index := 0
    time_in_phase := 0
    state := .GREEN
    transitioning := false
    next_phase_index := none }

/-- `TrafficLight.current_phase` (`self.phases[self.current_phase_index]`; the
out-of-range default is unreachable while the index stays within the list). -/
def TrafficLight.current_phase (l : TrafficLight) : Phase :=
  l.phases.getD l.current_phase_index ⟨[]⟩

/-- `TrafficLight.update`: accumulate `time_in_phase`; if transitioning in
YELLOW and the accumulated time has reached `yellow_time`, commit the pending
phase, go GREEN and reset.  In Python `next_phase_index` is always set while
`transitioning` holds; the `getD` default is unreachable there. -/
def TrafficLight.update (l : TrafficLight) (dt : ℝ) : TrafficLight :=
  let l' : TrafficLight := { l with time_in_phase := l.time_in_phase + dt }
  if l'.transitioning = true ∧ l'.state = .YELLOW then
    if l'.yellow_time ≤ l'.time_in_phase then
      { l' with current_phase_index := l'.next_phase_index.getD l'.current_phase_index
                state := .GREEN
                time_in_phase := 0
                transitioning := false
                next_phase_index := none }
    else l'
  else l'

/-- `TrafficLight.can_change_phase`: not transitioning, GREEN, and the minimum
green duration has elapsed. -/
def TrafficLight.can_change_phase (l : TrafficLight) : Prop :=
  l.transitioning = false ∧ l.state = .GREEN ∧ l.min_green_time ≤ l.time_in_phase

instance (l : TrafficLight) : Decidable l.can_change_phase := by
  unfold TrafficLight.can_change_phase
  infer_instance

/-- `TrafficLight.request_phase_change`: raises `ValueError` for an index
outside `[0, len(phases))` (modelled as `.error`), returns `false` without
changing state when the index is current or `can_change_phase` fails, and
otherwise begins the YELLOW transition and returns `true`.  The index is an
integer, as in Python, so negative requests are representable. -/
def TrafficLight.request_phase_change (l : TrafficLight) (new_phase_index : ℤ) :
    Except String (TrafficLight × Bool) :=
  if new_phase_index < 0 ∨ (l.phases.length : ℤ) ≤ new_phase_index then
    .error "Invalid phase index"
  else if new_phase_index = (l.current_phase_index : ℤ) then
    .ok (l, false)
  else if ¬ l.can_change_phase then
    .ok (l, false)
  else
    .ok ({ l with state := .YELLOW
                  transitioning := true
                  next_phase_index := some new_phase_index.toNat
                  time_in_phase := 0 }, true)

/-- `TrafficLight.get_state_for_road`: YELLOW is global; otherwise the road is
GREEN when it belongs to the current phase and RED when it does not. -/
def TrafficLight.get_state_for_road (l : TrafficLight) (start_node_id end_node_id : Nat) :
    LightState :=
  if l.state = .YELLOW then .YELLOW
  else if l.current_phase.is_green start_node_id end_node_id then
    (if l.state = .GREEN then .GREEN else l.state)
  else .RED

/-- An externally driven traffic-light interaction: a timed `update` or a
phase-change request (the only operations that mutate a `TrafficLight`). -/
inductive LightOp
  | update (dt : ℝ)
  | request (new_phase_index : ℤ)

/-- Effect of one interaction on the light; a raising `request_phase_change`
leaves the light unchanged (the exception is thrown before any mutation). -/
def TrafficLight.apply_op (l : TrafficLight) (op : LightOp) : TrafficLight :=
  match op with
  | .update dt => l.update dt
  | .request i =>
    match l.request_phase_change i with
    | .ok (l', _) => l'
    | .error _ => l

/-- A sequence of externally driven interactions, applied in order. -/
def TrafficLight.run_ops (l : TrafficLight) (ops : List LightOp) : TrafficLight :=
  ops.foldl TrafficLight.apply_op l

/-- `Vehicle` from `vehicle.py` (constructor fields and mutable state). -/
structure Vehicle where
  vehicle_id : Nat
  length : ℝ
  max_speed : ℝ
  max_acceleration : ℝ
  max_deceleration : ℝ
  time_headway : ℝ
  min_gap : ℝ
  current_road : Nat × Nat
  current_lane : Nat
  position : ℝ
  route : List (Nat × Nat)
  route_index : Nat
  desired_speed : ℝ
  speed : ℝ
  acceleration : ℝ
  previous_speed : ℝ
  total_wait_time : ℝ
  total_stops : Nat
  time_alive : ℝ

/-- `Vehicle.__init__`: a fresh vehicle at the given position with zero speed,
acceleration and metrics; `desired_speed = road_speed_limit * desired_speed_factor`. -/
def Vehicle.init (vehicle_id : Nat) (initial_road : Nat × Nat) (initial_lane : Nat)
    (initial_pos : ℝ) (route : List (Nat × Nat)) (road_speed_limit length max_speed
    desired_speed_factor min_gap time_headway max_acceleration max_deceleration : ℝ) :
    Vehicle :=
  { vehicle_id := vehicle_id
    length := length
    max_speed := max_speed
    max_acceleration := max_acceleration
    max_deceleration := max_deceleration
    time_headway := time_headway
    min_gap := min_gap
    current_road := initial_road
    current_lane := initial_lane
    position := initial_pos
    route := route
    route_index := 0
    desired_speed := road_speed_limit * desired_speed_factor
    speed := 0
    acceleration := 0
    previous_speed := 0
    total_wait_time := 0
    total_stops := 0
    time_alive := 0 }

/-- `Vehicle.update`: integrate speed, clamp it into `[0, max_speed]`, integrate
position with the clamped speed, accumulate the wait-time metric when the new
speed is under `1` m/s, count a stop on a crossing of `STOP_THRESHOLD`, and
record the new speed as `previous_speed`. -/
def Vehicle.update (v : Vehicle) (dt : ℝ) : Vehicle :=
  let new_speed : ℝ := max 0 (min (v.speed + v.acceleration * dt) v.max_speed)
  { v with
    speed := new_speed
    position := v.position + new_speed * dt
    total_wait_time := if new_speed < 1 then v.total_wait_time + dt else v.total_wait_time
    total_stops :=
      if STOP_THRESHOLD < v.previous_speed ∧ new_speed ≤ STOP_THRESHOLD then
        v.total_stops + 1
      else v.total_stops
    time_alive := v.time_alive + dt
    previous_speed := new_speed }

/-- `Vehicle.set_acceleration`: clamp the requested acceleration into
`[-max_deceleration, max_acceleration]` before storing. -/
def Vehicle.set_acceleration (v : Vehicle) (acc : ℝ) : Vehicle :=
  { v with acceleration := max (-v.max_deceleration) (min acc v.max_acceleration) }

/-- A sequence of update steps in which the caller stores an arbitrary
acceleration before each `update` (directly, which subsumes any value
`set_acceleration` could store): each pair is `(acceleration, dt)`. -/
def Vehicle.run_updates (v : Vehicle) (ops : List (ℝ × ℝ)) : Vehicle :=
  ops.foldl (fun w p => Vehicle.update { w with acceleration := p.1 } p.2) v

/-- A directed road record (the edge attributes set by `RoadNetwork.add_road`):
length, lane count, speed limit, and the per-lane ordered vehicle membership.
Lane `i`'s member list holds vehicle identifiers, resolved through the
simulation's vehicle store. -/
structure Road where
  length : ℝ
  num_lanes : Nat
  speed_limit : ℝ
  lanes : List (List Nat)

/-- `Road` with one vehicle removed from a lane (`list.remove` removes the
first occurrence; absent identifiers leave the lane unchanged, matching the
`if vehicle in ...` guard where one is present in the source). -/
def Road.removeFromLane (r : Road) (lane vid : Nat) : Road :=
  { r with lanes := r.lanes.set lane ((r.lanes.getD lane []).erase vid) }

/-- `Road` with one vehicle appended to the end of a lane (`list.append`). -/
def Road.appendToLane (r : Road) (lane vid : Nat) : Road :=
  { r with lanes := r.lanes.set lane ((r.lanes.getD lane []).concat vid) }

/-- `RoadNetwork` from `road_network.py`: the directed-graph state the
simulator reads.  `roads` are the edges with their attributes, `lights` the
`traffic_light` node attribute of the nodes that carry one.  `shortest_route`
models the external `networkx.shortest_path` query (library code, not part of
this repository): `none` when the query raises because no route exists. -/
structure RoadNetwork where
  roads : List ((Nat × Nat) × Road)
  lights : List (Nat × TrafficLight)
  shortest_route : Nat → Nat → Option (List (Nat × Nat))

/-- `RoadNetwork.get_road`, as a partial lookup (`none` models the
`ValueError` raised when no such directed edge exists). -/
def RoadNetwork.get_road (n : RoadNetwork) (rid : Nat × Nat) : Option Road :=
  (n.roads.find? (fun p => p.1 = rid)).map (·.2)

/-- Overwrite a road's record in place (the Python code mutates the edge
attribute dictionary returned by `get_road`). -/
def RoadNetwork.set_road (n : RoadNetwork) (rid : Nat × Nat) (r : Road) : RoadNetwork :=
  { n with roads := n.roads.map (fun p => if p.1 = rid then (rid, r) else p) }

/-- The `traffic_light` attribute of a node (`node_data.get('traffic_light')`). -/
def RoadNetwork.light_at (n : RoadNetwork) (node : Nat) : Option TrafficLight :=
  (n.lights.find? (fun p => p.1 = node)).map (·.2)

/-- `Simulation` state from `simulation.py`, restricted to the deterministic
fragment: the stochastic demand generator (`traffic_enabled`,
`demand_pattern`, spawn points, PRNG draws) is disabled, as it is by default;
runs under study drive the simulation with manual `spawn_vehicle` calls. -/
structure Simulation where
  road_network : RoadNetwork
  dt : ℝ
  time : ℝ
  vehicles : List Vehicle
  completed_vehicles : List Vehicle
  next_vehicle_id : Nat

/-- `Simulation.__init__` over a road network and a time step. -/
def Simulation.init (road_network : RoadNetwork) (dt : ℝ) : Simulation :=
  { road_network := road_network
    dt := dt
    time := 0
    vehicles := []
    completed_vehicles := []
    next_vehicle_id := 0 }

/-- Resolve a vehicle identifier through the store (a Python object reference). -/
def Simulation.findVehicle (s : Simulation) (vid : Nat) : Option Vehicle :=
  s.vehicles.find? (fun w => w.vehicle_id = vid)

/-- Write back an updated vehicle record (in Python the object is mutated in
place; here every record with the same identifier is replaced). -/
def Simulation.replaceVehicle (s : Simulation) (v : Vehicle) : Simulation :=
  { s with vehicles := s.vehicles.map (fun w => if w.vehicle_id = v.vehicle_id then v else w) }

/-- The vehicles currently on one lane of one road, resolved from the lane's
identifier list (an unknown road yields the empty list; Python raises there). -/
def Simulation.laneVehicles (s : Simulation) (rid : Nat × Nat) (lane : Nat) : List Vehicle :=
  match s.road_network.get_road rid with
  | none => []
  | some road => (road.lanes.getD lane []).filterMap s.findVehicle

/-- Stable insertion into a position-sorted list (helper for the
`list.sort(key=position)` in `Vehicle.get_leading_vehicle`). -/
def insertByPosition (w : Vehicle) : List Vehicle → List Vehicle
  | [] => [w]
  | y :: ys => if w.position ≤ y.position then w :: y :: ys else y :: insertByPosition w ys

/-- Stable ascending sort by position, the effect of
`vehicles_in_lane.sort(key=lambda v: v.position)`. -/
def sortByPosition : List Vehicle → List Vehicle
  | [] => []
  | x :: xs => insertByPosition x (sortByPosition xs)

/-- `Vehicle.get_leading_vehicle`: sort the lane by position and return the
first vehicle strictly ahead of this one.  (The in-place Python sort only
reorders a list whose order is re-sorted before every later scan, so sorting
a copy is observationally equivalent.) -/
def Simulation.get_leading_vehicle (s : Simulation) (v : Vehicle) : Option Vehicle :=
  (sortByPosition (s.laneVehicles v.current_road v.current_lane)).find?
    (fun w => decide (v.position < w.position))

/-- `Simulation._check_traffic_light`: the distance to the stop line when the
vehicle is within detection distance of an intersection whose light is not
GREEN for its directed road, else `none`.  An unknown road would raise in
Python (unreachable for well-formed states). -/
def Simulation.check_traffic_light (s : Simulation) (v : Vehicle) : Option ℝ :=
  match s.road_network.get_road v.current_road with
  | none => none
  | some road =>
    let distance_to_end : ℝ := road.length - v.position
    if INTERSECTION_DETECTION_DISTANCE < distance_to_end then none
    else
      match s.road_network.light_at v.current_road.2 with
      | none => none
      | some tl =>
        if tl.get_state_for_road v.current_road.1 v.current_road.2 = .GREEN then none
        else some (max (distance_to_end - STOP_LINE_OFFSET) 0)

/-- The shared tail of `Simulation.compute_acceleration`: the IDM formula for
a governing gap and closing speed. -/
def idm_acceleration (v : Vehicle) (gap delta_v : ℝ) : ℝ :=
  let free_flow_term : ℝ := 1 - (v.speed / v.desired_speed) ^ IDM_DELTA
  let s_star : ℝ := v.min_gap + v.speed * v.time_headway +
    v.speed * delta_v / (2 * Real.sqrt (v.max_acceleration * v.max_deceleration))
  let interaction_term : ℝ := (s_star / max gap 0.1) ^ 2
  v.max_acceleration * (free_flow_term - interaction_term)

/-- `Simulation.compute_acceleration`: IDM against the closer of the physical
leader and the virtual red-light leader, or pure free flow when neither
constraint is present. -/
def Simulation.compute_acceleration (s : Simulation) (v : Vehicle) : ℝ :=
  let leading_vehicle := s.get_leading_vehicle v
  let virtual_leader_distance := s.check_traffic_light v
  match virtual_leader_distance with
  | some vd =>
    match leading_vehicle with
    | none => idm_acceleration v vd v.speed
    | some lv =>
      let physical_gap : ℝ := lv.position - v.position - v.length
      if vd < physical_gap then idm_acceleration v vd v.speed
      else idm_acceleration v physical_gap (v.speed - lv.speed)
  | none =>
    match leading_vehicle with
    | none => v.max_acceleration * (1 - (v.speed / v.desired_speed) ^ IDM_DELTA)
    | some lv => idm_acceleration v (lv.position - v.position - v.length) (v.speed - lv.speed)

/-- `Simulation._can_enter_intersection`: permitted when the destination node
has no light or its light reports GREEN for this directed road. -/
def Simulation.can_enter_intersection (s : Simulation) (v : Vehicle) : Bool :=
  match s.road_network.light_at v.current_road.2 with
  | none => true
  | some tl => decide (tl.get_state_for_road v.current_road.1 v.current_road.2 = .GREEN)

/-- The lane-detach prefix of `Simulation.remove_vehicle`: drop the vehicle's
identifier from its current lane (a no-op on the lane when it is absent,
matching the `if vehicle in ...` membership guard). -/
def Simulation.detachFromLane (s : Simulation) (v : Vehicle) : Simulation :=
  match s.road_network.get_road v.current_road with
  | none => s  -- Python raises `ValueError` here (unreachable when the road exists)
  | some road =>
    { s with road_network :=
        s.road_network.set_road v.current_road (road.removeFromLane v.current_lane v.vehicle_id) }

/-- `Simulation.remove_vehicle`: detach the vehicle from its lane if present,
then move it from the active list to the completed archive if present. -/
def Simulation.remove_vehicle (s : Simulation) (v : Vehicle) : Simulation :=
  let s1 : Simulation := s.detachFromLane v
  if s1.vehicles.any (fun w => w.vehicle_id == v.vehicle_id) then
    { s1 with
      vehicles := s1.vehicles.eraseP (fun w => w.vehicle_id == v.vehicle_id)
      completed_vehicles := s1.completed_vehicles.concat v }
  else s1

/-- `Simulation.handle_road_transition`: remove the vehicle from its old lane,
advance the route cursor, then either archive a finished vehicle or place it
at `max(0, overshoot)` on the next road of its route, clamping the lane index
down when the new road has fewer lanes. -/
def Simulation.handle_road_transition (s : Simulation) (v : Vehicle) : Simulation :=
  match s.road_network.get_road v.current_road with
  | none => s  -- Python raises `ValueError` here (unreachable when the road exists)
  | some old_road =>
    let overshoot : ℝ := v.position - old_road.length
    let s1 : Simulation :=
      { s with road_network :=
          s.road_network.set_road v.current_road (old_road.removeFromLane v.current_lane v.vehicle_id) }
    let v1 : Vehicle := { v with route_index := v.route_index + 1 }
    let s2 := s1.replaceVehicle v1
    if v1.route.length ≤ v1.route_index then
      s2.remove_vehicle v1
    else
      match v1.route.get? v1.route_index with
      | none => s2  -- unreachable: the cursor is within the route here
      | some next_road =>
        let v2 : Vehicle := { v1 with position := max 0 overshoot, current_road := next_road }
        match s2.road_network.get_road next_road with
        | none => s2.replaceVehicle v2  -- Python raises `ValueError` here
        | some new_road =>
          let v3 : Vehicle :=
            if new_road.num_lanes ≤ v2.current_lane then
              { v2 with current_lane := new_road.num_lanes - 1 }
            else v2
          let s3 := s2.replaceVehicle v3
          { s3 with road_network :=
              s3.road_network.set_road next_road (new_road.appendToLane v3.current_lane v3.vehicle_id) }

/-- `Simulation.spawn_vehicle`: place a fresh vehicle at position 0 of the
given lane, routed by the shortest path; the `ValueError`/no-route failures
leave the state unchanged, as the exceptions are raised before any mutation. -/
def Simulation.spawn_vehicle (s : Simulation) (start_node_id end_node_id destination_node_id : Nat)
    (lane_index : Nat) (length max_speed desired_speed_factor min_gap time_headway
    max_acceleration max_deceleration : ℝ) : Simulation :=
  match s.road_network.get_road (start_node_id, end_node_id) with
  | none => s  -- Python raises `ValueError` (no such road)
  | some road =>
    match s.road_network.shortest_route start_node_id destination_node_id with
    | none => s  -- `networkx` raises (no route)
    | some route =>
      if road.num_lanes ≤ lane_index then s  -- Python raises `ValueError` (lane non-existent)
      else
        let v := Vehicle.init s.next_vehicle_id (start_node_id, end_node_id) lane_index 0 route
          road.speed_limit length max_speed desired_speed_factor min_gap time_headway
          max_acceleration max_deceleration
        let s1 : Simulation := { s with vehicles := s.vehicles.concat v }
        let rn := s1.road_network.set_road (start_node_id, end_node_id) (road.appendToLane lane_index v.vehicle_id)
        let s2 : Simulation := { s1 with road_network := rn }
        { s2 with next_vehicle_id := s2.next_vehicle_id + 1 }

/-- `Simulation._update_traffic_lights`: advance every light by `dt`. -/
def Simulation.update_traffic_lights (s : Simulation) : Simulation :=
  { s with road_network :=
      { s.road_network with
        lights := s.road_network.lights.map (fun p => (p.1, p.2.update s.dt)) } }

/-- The physics loop body of `Simulation.step` for one vehicle: compute the
IDM acceleration from the current state, clamp and store it, integrate. -/
def Simulation.physics_one (s : Simulation) (vid : Nat) : Simulation :=
  match s.findVehicle vid with
  | none => s
  | some v => s.replaceVehicle ((v.set_acceleration (s.compute_acceleration v)).update s.dt)

/-- The physics loop of `Simulation.step` (`for vehicle in self.vehicles`):
the vehicles are processed sequentially, in list order, each update writing
back into the state the next iteration reads. -/
def Simulation.physics_pass (s : Simulation) : Simulation :=
  (s.vehicles.map (fun v => v.vehicle_id)).foldl Simulation.physics_one s

/-- Modelled from the spec: the synchronous variant of the physics loop, in
which every acceleration is computed from the frozen pre-step snapshot and
only then is every vehicle integrated (spec section 4.4 step 3 and section 5). -/
def Simulation.physics_pass_synchronous (s : Simulation) : Simulation :=
  { s with vehicles :=
      s.vehicles.map (fun v => (v.set_acceleration (s.compute_acceleration v)).update s.dt) }

/-- The end-of-road loop body of `Simulation.step` for one vehicle: past the
stop line, either transition through a permitting intersection once the full
road length is passed, or hard-stop exactly at the stop line. -/
def Simulation.end_of_road_one (s : Simulation) (vid : Nat) : Simulation :=
  match s.findVehicle vid with
  | none => s
  | some v =>
    match s.road_network.get_road v.current_road with
    | none => s  -- Python: `get_road_length` raises (unreachable when the road exists)
    | some road =>
      let stop_line_position : ℝ := road.length - STOP_LINE_OFFSET
      if stop_line_position ≤ v.position then
        if s.can_enter_intersection v then
          if road.length ≤ v.position then s.handle_road_transition v else s
        else
          s.replaceVehicle (({ v with position := stop_line_position, speed := 0 }).set_acceleration 0)
      else s

/-- The end-of-road loop of `Simulation.step` (`for vehicle in self.vehicles[:]`:
the iteration is over a copy of the pre-loop vehicle list). -/
def Simulation.end_of_road_pass (s : Simulation) : Simulation :=
  (s.vehicles.map (fun v => v.vehicle_id)).foldl Simulation.end_of_road_one s

/-- `Simulation.step` with traffic generation disabled: advance the lights,
run the sequential physics loop, handle vehicles at the end of their road,
and advance simulated time. -/
def Simulation.step (s : Simulation) : Simulation :=
  let s3 := (s.update_traffic_lights).physics_pass.end_of_road_pass
  { s3 with time := s3.time + s3.dt }

/-- Outcome of `Simulation._select_od_pair`: no registered pairs (`None` in
Python), a selected pair, or the trailing fallback line — which reads the
nonexistent attribute `self.od_pairs` and would raise `AttributeError`. -/
inductive ODSelectResult
  | none_pairs
  | selected (p : Nat × Nat × ℝ)
  | fallback_crash
deriving DecidableEq

/-- The cumulative-weight loop of `Simulation._select_od_pair`. -/
def select_od_pair_loop (r : ℝ) (cumulative : ℝ) :
    List (Nat × Nat × ℝ) → ODSelectResult
  | [] => .fallback_crash
  | p :: rest =>
    if r ≤ cumulative + p.2.2 then .selected p
    else select_od_pair_loop r (cumulative + p.2.2) rest

/-- `Simulation._select_od_pair`, with the uniform draw
`r = random.uniform(0, total_weight)` made an explicit argument. -/
def select_od_pair (pairs : List (Nat × Nat × ℝ)) (r : ℝ) : ODSelectResult :=
  if pairs = [] then .none_pairs
  else select_od_pair_loop r 0 pairs

/-- A manual interaction with the simulation: a spawn, a step, or a direct
`handle_road_transition` call on an active vehicle (no manual removals). -/
inductive SimOp
  | spawn (start_node_id end_node_id destination_node_id lane_index : Nat)
      (length max_speed desired_speed_factor min_gap time_headway
       max_acceleration max_deceleration : ℝ)
  | step
  | transition (vid : Nat)

/-- Effect of one manual interaction. -/
def Simulation.apply_op (s : Simulation) (op : SimOp) : Simulation :=
  match op with
  | .spawn a b d lane len ms dsf mg th ma md => s.spawn_vehicle a b d lane len ms dsf mg th ma md
  | .step => s.step
  | .transition vid =>
    match s.findVehicle vid with
    | none => s
    | some v => s.handle_road_transition v

/-- A run of manual interactions from a given state. -/
def Simulation.run_ops (s : Simulation) (ops : List SimOp) : Simulation :=
  ops.foldl Simulation.apply_op s

/-- A road `(a, b)` is governed by a light that does not report GREEN for it. -/
def Simulation.nonGreenRoad (s : Simulation) (rid : Nat × Nat) : Prop :=
  ∃ tl, s.road_network.light_at rid.2 = some tl ∧
    tl.get_state_for_road rid.1 rid.2 ≠ .GREEN

/-! Example fixtures used by witnesses and counterexamples. -/

/-- A two-phase light, five seconds into its initial green phase. -/
def exLight : TrafficLight :=
  { TrafficLight.init 7 [⟨[(0, 7)]⟩, ⟨[(3, 7)]⟩] 30 3 5 with time_in_phase := 6 }

/-- The light of `exLight` right after a granted request for phase 1. -/
def exLightYellow : TrafficLight :=
  { exLight with
    state := .YELLOW,
    transitioning := true,
    next_phase_index := some 1,
    time_in_phase := 0 }

/-- A vehicle fixture: parameters of `VehicleDefault`, rolling at half speed. -/
def exVehicle : Vehicle :=
  { Vehicle.init 0 (0, 1) 0 0 [(0, 1)] 10 5 40 1 2 1.5 3 5 with speed := 1/2 }

/-- A 30 m road with a single lane holding vehicles 0 and 1. -/
def exC2road : Road :=
  { length := 30, num_lanes := 1, speed_limit := 10, lanes := [[0, 1]] }

/-- A light at node 1 whose single phase grants green to no road, so every
road derives RED while the raw state is GREEN. -/
def exC2light : TrafficLight := TrafficLight.init 1 [⟨[]⟩] 30 3 5

/-- The follower: 15 m along the road at 10 m/s. -/
def exC2v : Vehicle :=
  { Vehicle.init 0 (0, 1) 0 0 [(0, 1)] 10 5 40 1 2 (3/2) 3 5 with position := 15, speed := 10 }

/-- The leader: parked 25 m along the road. -/
def exC2lead : Vehicle :=
  { Vehicle.init 1 (0, 1) 0 0 [(0, 1)] 10 5 40 1 2 (3/2) 3 5 with position := 25 }

/-- A simulation with both a physical leader and a red light ahead of
vehicle 0. -/
def exC2 : Simulation :=
  { road_network :=
      { roads := [((0, 1), exC2road)],
        lights := [(1, exC2light)],
        shortest_route := fun _ _ => none },
    dt := 1,
    time := 0,
    vehicles := [exC2v, exC2lead],
    completed_vehicles := [],
    next_vehicle_id := 2 }

/-- Road for the sequential-update counterexample: 100 m, one lane, holding
vehicles 0 (leader) and 1 (follower). -/
def exSeqRoad : Road :=
  { length := 100, num_lanes := 1, speed_limit := 10, lanes := [[0, 1]] }

/-- Leader of the counterexample: 50 m along the road, rolling at 10 m/s,
with unit IDM acceleration bounds so that `sqrt(max_accel·max_decel) = 1`. -/
def exSeqA : Vehicle :=
  { Vehicle.init 0 (0, 1) 0 0 [(0, 1)] 10 5 20 1 2 1 1 1 with
    position := 50, speed := 10, previous_speed := 10 }

/-- Follower of the counterexample: at the road start, also at 10 m/s. -/
def exSeqB : Vehicle :=
  { Vehicle.init 1 (0, 1) 0 0 [(0, 1)] 10 5 20 1 2 1 1 1 with
    speed := 10, previous_speed := 10 }

/-- The two-vehicle state on which the in-place loop and the frozen-snapshot
update disagree. -/
def exSeq : Simulation :=
  { road_network :=
      { roads := [((0, 1), exSeqRoad)], lights := [], shortest_route := fun _ _ => none },
    dt := 1,
    time := 0,
    vehicles := [exSeqA, exSeqB],
    completed_vehicles := [],
    next_vehicle_id := 2 }

/-- The leader after its integration step: advanced to 60 m. -/
def exSeqA1 : Vehicle := { exSeqA with position := 60, time_alive := 1 }

/-- The state after the in-place loop has processed the leader only. -/
def exSeqMid : Simulation := { exSeq with vehicles := [exSeqA1, exSeqB] }

/-- The follower after the in-place loop: it saw the leader at 60 m
(gap 55 m), so its IDM braking is `-(144/3025)`. -/
def exSeqBseq : Vehicle :=
  { exSeqB with
    acceleration := -(144/3025),
    speed := 30106/3025,
    position := 30106/3025,
    previous_speed := 30106/3025,
    time_alive := 1 }

/-- The follower under the frozen-snapshot update: it saw the leader at 50 m
(gap 45 m), so its IDM braking is `-(144/2025)`. -/
def exSeqBsync : Vehicle :=
  { exSeqB with
    acceleration := -(144/2025),
    speed := 20106/2025,
    position := 20106/2025,
    previous_speed := 20106/2025,
    time_alive := 1 }

/-- A single-vehicle road for the one-vehicle agreement witness. -/
def exSoloRoad : Road :=
  { length := 100, num_lanes := 1, speed_limit := 10, lanes := [[0]] }

/-- A simulation with a single active vehicle. -/
def exSolo : Simulation :=
  { road_network :=
      { roads := [((0, 1), exSoloRoad)], lights := [], shortest_route := fun _ _ => none },
    dt := 1,
    time := 0,
    vehicles := [exSeqA],
    completed_vehicles := [],
    next_vehicle_id := 1 }

/-- First road of the transition counterexample: 10 m, holding vehicle 0. -/
def exC3road1 : Road := { length := 10, num_lanes := 1, speed_limit := 10, lanes := [[0]] }

/-- Second road of the transition counterexample: only 1 m long, so its stop
line sits at −1 m. -/
def exC3road2 : Road := { length := 1, num_lanes := 1, speed_limit := 10, lanes := [[]] }

/-- The light at node 2: its sole phase grants green to no road, so road
`(1, 2)` derives RED. -/
def exC3light : TrafficLight := TrafficLight.init 2 [⟨[]⟩] 30 3 5

/-- A stationary vehicle (zero acceleration bound) already at the very end of
road `(0, 1)`, routed onward over road `(1, 2)`. -/
def exC3v : Vehicle :=
  { Vehicle.init 0 (0, 1) 0 0 [(0, 1), (1, 2)] 10 5 5 1 2 1 0 5 with position := 10 }

/-- The transition-counterexample start state. -/
def exC3 : Simulation :=
  { road_network :=
      { roads := [((0, 1), exC3road1), ((1, 2), exC3road2)],
        lights := [(2, exC3light)],
        shortest_route := fun _ _ => none },
    dt := 1,
    time := 0,
    vehicles := [exC3v],
    completed_vehicles := [],
    next_vehicle_id := 1 }

/-- The counterexample light after one second of green. -/
def exC3lightU : TrafficLight := { exC3light with time_in_phase := 1 }

/-- The counterexample state after the light update. -/
def exC3U : Simulation :=
  { exC3 with road_network :=
      { roads := [((0, 1), exC3road1), ((1, 2), exC3road2)],
        lights := [(2, exC3lightU)],
        shortest_route := fun _ _ => none } }

/-- The counterexample vehicle after the physics phase (it did not move). -/
def exC3vP : Vehicle := { exC3v with total_wait_time := 1, time_alive := 1 }

/-- The counterexample state after the physics phase. -/
def exC3P : Simulation := { exC3U with vehicles := [exC3vP] }

/-- The counterexample vehicle after transitioning onto road `(1, 2)`. -/
def exC3vF : Vehicle :=
  { exC3vP with route_index := 1, position := 0, current_road := (1, 2) }

/-- Road `(0, 1)` with its lane emptied by the transition. -/
def exC3road1E : Road := { length := 10, num_lanes := 1, speed_limit := 10, lanes := [[]] }

/-- Road `(1, 2)` now holding vehicle 0. -/
def exC3road2F : Road := { length := 1, num_lanes := 1, speed_limit := 10, lanes := [[0]] }

/-- The counterexample state after the end-of-road loop. -/
def exC3F : Simulation :=
  { road_network :=
      { roads := [((0, 1), exC3road1E), ((1, 2), exC3road2F)],
        lights := [(2, exC3lightU)],
        shortest_route := fun _ _ => none },
    dt := 1,
    time := 0,
    vehicles := [exC3vF],
    completed_vehicles := [],
    next_vehicle_id := 1 }

/-- Road for the clamp witness: 10 m, one lane, holding vehicle 0. -/
def exWroad : Road := { length := 10, num_lanes := 1, speed_limit := 10, lanes := [[0]] }

/-- The witness light at node 1: every road derives RED. -/
def exWlight : TrafficLight := TrafficLight.init 1 [⟨[]⟩] 30 3 5

/-- The witness vehicle, stopped 9 m along the road, 1 m past the stop line. -/
def exWv : Vehicle :=
  { Vehicle.init 0 (0, 1) 0 0 [(0, 1)] 10 5 5 1 2 1 1 5 with position := 9 }

/-- The clamp-witness start state. -/
def exW : Simulation :=
  { road_network :=
      { roads := [((0, 1), exWroad)],
        lights := [(1, exWlight)],
        shortest_route := fun _ _ => none },
    dt := 1,
    time := 0,
    vehicles := [exWv],
    completed_vehicles := [],
    next_vehicle_id := 1 }

/-- The witness light after one second of green. -/
def exWlightU : TrafficLight := { exWlight with time_in_phase := 1 }

/-- The witness state after the light update. -/
def exWU : Simulation :=
  { exW with road_network :=
      { roads := [((0, 1), exWroad)],
        lights := [(1, exWlightU)],
        shortest_route := fun _ _ => none } }

/-- The witness vehicle after the physics phase: the red-light virtual leader
commands full braking, clamped to `-max_deceleration`; the speed clamp holds
it at rest. -/
def exWvP : Vehicle :=
  { exWv with acceleration := -5, total_wait_time := 1, time_alive := 1 }

/-- The witness state after the physics phase. -/
def exWP : Simulation := { exWU with vehicles := [exWvP] }

/-- The witness vehicle after the end-of-road clamp: back at the 8 m stop
line, speed and acceleration zero. -/
def exWvC : Vehicle := { exWvP with position := 8, speed := 0, acceleration := 0 }

/-- The witness state at the end of the step. -/
def exWF : Simulation := { exWU with vehicles := [exWvC], time := 1 }

/-! Theorems. -/

/-- Closed form of `TrafficLight.update`: the accumulated time is tested, and
either the pending phase is committed or only the accumulator changes. -/
theorem TrafficLight.update_eq (l : TrafficLight) (dt : ℝ) :
    l.update dt =
      if l.transitioning = true ∧ l.state = .YELLOW ∧ l.yellow_time ≤ l.time_in_phase + dt then
        { l with current_phase_index := l.next_phase_index.getD l.current_phase_index,
                 state := .GREEN,
                 time_in_phase := 0,
                 transitioning := false,
                 next_phase_index := none }
      else { l with time_in_phase := l.time_in_phase + dt } := by
  show (if l.transitioning = true ∧ l.state = .YELLOW then _ else _) = _
  split_ifs <;> first | rfl | tauto

/-- The raw light state stays in {GREEN, YELLOW} across one interaction. -/
theorem TrafficLight.state_ok_apply_op (l : TrafficLight) (op : LightOp)
    (h : l.state = .GREEN ∨ l.state = .YELLOW) :
    (l.apply_op op).state = .GREEN ∨ (l.apply_op op).state = .YELLOW := by
  cases op with
  | update dt =>
    show (l.update dt).state = .GREEN ∨ (l.update dt).state = .YELLOW
    rw [TrafficLight.update_eq]
    split_ifs
    · exact Or.inl rfl
    · exact h
  | request i =>
    show (match l.request_phase_change i with
          | .ok (l', _) => l'
          | .error _ => l).state = .GREEN ∨
        (match l.request_phase_change i with
          | .ok (l', _) => l'
          | .error _ => l).state = .YELLOW
    unfold TrafficLight.request_phase_change
    split_ifs
    · exact h
    · exact h
    · exact Or.inr rfl
    · exact h

/-- C4: for every traffic light reachable from the initial state by any
sequence of `update` and `request_phase_change` calls, the raw `state` field
is only ever GREEN or YELLOW (never RED), and `get_state_for_road (a, b)`
returns YELLOW for every road when the raw state is YELLOW, and otherwise
GREEN when `(a, b)` is in the current phase's green set and RED when not. -/
theorem trafficLight_reachable_state_spec (intersection_id : Nat) (phases : List Phase)
    (green_time yellow_time min_green_time : ℝ) (ops : List LightOp) :
    (((TrafficLight.init intersection_id phases green_time yellow_time min_green_time).run_ops
        ops).state = .GREEN ∨
     ((TrafficLight.init intersection_id phases green_time yellow_time min_green_time).run_ops
        ops).state = .YELLOW) ∧
    ∀ a b,
      ((TrafficLight.init intersection_id phases green_time yellow_time min_green_time).run_ops
          ops).get_state_for_road a b =
        (if ((TrafficLight.init intersection_id phases green_time yellow_time
                min_green_time).run_ops ops).state = .YELLOW then .YELLOW
         else if ((TrafficLight.init intersection_id phases green_time yellow_time
                min_green_time).run_ops ops).current_phase.is_green a b then .GREEN
         else .RED) := by
  have hstate : ∀ (l : TrafficLight) (ops' : List LightOp),
      (l.state = .GREEN ∨ l.state = .YELLOW) →
      ((l.run_ops ops').state = .GREEN ∨ (l.run_ops ops').state = .YELLOW) := by
    intro l ops' h
    induction ops' generalizing l with
    | nil => exact h
    | cons op rest ih =>
      exact ih (l.apply_op op) (TrafficLight.state_ok_apply_op l op h)
  have h := hstate (TrafficLight.init intersection_id phases green_time yellow_time
    min_green_time) ops (Or.inl rfl)
  refine ⟨h, fun a b => ?_⟩
  unfold TrafficLight.get_state_for_road
  split_ifs with h1 h2 h3
  · rfl
  · rfl
  · rcases h with hg | hy
    · exact hg
    · exact absurd hy h1
  · rfl

/-- C5: `request_phase_change` raises an invalid-argument error exactly for
indices outside `[0, len(phases))`; inside the range it is a no-op returning
`false` when the index is current, the light is transitioning, the raw state
is not GREEN, or the minimum green time has not elapsed; and otherwise it
sets the raw state to YELLOW, records the pending index, resets
`time_in_phase` to 0, and returns `true`. -/
theorem trafficLight_request_phase_change_spec (l : TrafficLight) (i : ℤ) :
    ((i < 0 ∨ (l.phases.length : ℤ) ≤ i) →
      l.request_phase_change i = .error "Invalid phase index") ∧
    (0 ≤ i → i < (l.phases.length : ℤ) →
      (i = (l.current_phase_index : ℤ) ∨ l.transitioning = true ∨ l.state ≠ .GREEN ∨
        l.time_in_phase < l.min_green_time) →
      l.request_phase_change i = .ok (l, false)) ∧
    (0 ≤ i → i < (l.phases.length : ℤ) → i ≠ (l.current_phase_index : ℤ) →
      l.transitioning = false → l.state = .GREEN → l.min_green_time ≤ l.time_in_phase →
      l.request_phase_change i = .ok ({ l with
        state := .YELLOW,
        transitioning := true,
        next_phase_index := some i.toNat,
        time_in_phase := 0 }, true)) := by
  unfold TrafficLight.request_phase_change
  refine ⟨fun h => if_pos h, ?_, ?_⟩
  · intro h0 hlen hno
    rw [if_neg (by push_neg; exact ⟨h0, hlen⟩)]
    rcases hno with hcur | hno
    · rw [if_pos hcur]
    · rcases eq_or_ne i (l.current_phase_index : ℤ) with hcur | hcur
      · rw [if_pos hcur]
      · rw [if_neg hcur, if_pos ?_]
        unfold TrafficLight.can_change_phase
        push_neg
        intro htr hst
        rcases hno with h | h | h
        · exact Bool.noConfusion (htr.symm.trans h)
        · exact absurd hst h
        · exact h
  · intro h0 hlen hcur htr hst hmin
    rw [if_neg (by push_neg; exact ⟨h0, hlen⟩), if_neg hcur, if_neg ?_]
    push_neg
    exact ⟨htr, hst, hmin⟩

/-- Witness for C5: at a concrete two-phase light six seconds into GREEN,
requesting phase 1 succeeds and begins the YELLOW transition, while
requesting phase 5 raises. -/
theorem trafficLight_request_phase_change_spec_witness :
    exLight.request_phase_change 5 = .error "Invalid phase index" ∧
    exLight.request_phase_change 1 =
      .ok ({ exLight with
        state := .YELLOW,
        transitioning := true,
        next_phase_index := some 1,
        time_in_phase := 0 }, true) := by
  constructor
  · exact (trafficLight_request_phase_change_spec exLight 5).1
      (by right; norm_num [exLight, TrafficLight.init])
  · exact (trafficLight_request_phase_change_spec exLight 1).2.2
      (by norm_num) (by norm_num [exLight, TrafficLight.init])
      (by norm_num [exLight, TrafficLight.init])
      (by norm_num [exLight, TrafficLight.init])
      (by norm_num [exLight, TrafficLight.init])
      (by norm_num [exLight, TrafficLight.init])

/-- Updates totalling zero applied to a committed (GREEN, non-transitioning)
light leave its phase, state and zero accumulator in place. -/
theorem TrafficLight.foldl_update_zero (k : Nat) (dts : List ℝ) :
    ∀ l : TrafficLight, l.transitioning = false → l.state = .GREEN →
      l.current_phase_index = k → l.time_in_phase = 0 → (∀ d ∈ dts, d = 0) →
      ((dts.foldl TrafficLight.update l).state = .GREEN ∧
       (dts.foldl TrafficLight.update l).current_phase_index = k ∧
       (dts.foldl TrafficLight.update l).time_in_phase = 0) := by
  induction dts with
  | nil => exact fun l _ h2 h3 h4 _ => ⟨h2, h3, h4⟩
  | cons d rest ih =>
    intro l h1 h2 h3 h4 h5
    have hd : d = 0 := h5 d (List.mem_cons_self d rest)
    have hupd : l.update d = { l with time_in_phase := l.time_in_phase + d } := by
      rw [TrafficLight.update_eq, if_neg]
      rintro ⟨ht, _⟩
      exact Bool.noConfusion (h1.symm.trans ht)
    rw [List.foldl_cons, hupd]
    exact ih _ h1 h2 h3 (by simp [h4, hd]) (fun x hx => h5 x (List.mem_cons_of_mem d hx))

/-- A transitioning YELLOW light fed nonnegative updates whose total exactly
exhausts the remaining yellow interval commits to its pending phase. -/
theorem TrafficLight.yellow_countdown (k : Nat) (dts : List ℝ) :
    ∀ l : TrafficLight, l.transitioning = true → l.state = .YELLOW →
      l.next_phase_index = some k → (∀ d ∈ dts, 0 ≤ d) →
      l.time_in_phase + dts.sum = l.yellow_time → 0 < dts.sum →
      ((dts.foldl TrafficLight.update l).state = .GREEN ∧
       (dts.foldl TrafficLight.update l).current_phase_index = k ∧
       (dts.foldl TrafficLight.update l).time_in_phase = 0) := by
  induction dts with
  | nil => intro l _ _ _ _ _ hpos; simp at hpos
  | cons d rest ih =>
    intro l htr hst hnext hnn hsum hpos
    have hsum' : l.time_in_phase + d + rest.sum = l.yellow_time := by
      rw [← hsum, List.sum_cons]; ring
    rw [List.foldl_cons, TrafficLight.update_eq]
    by_cases hc : l.yellow_time ≤ l.time_in_phase + d
    · rw [if_pos ⟨htr, hst, hc⟩]
      have hrest_nn : ∀ x ∈ rest, (0:ℝ) ≤ x :=
        fun x hx => hnn x (List.mem_cons_of_mem d hx)
      have hrest0 : rest.sum = 0 := by
        have h2 : 0 ≤ rest.sum := List.sum_nonneg hrest_nn
        linarith
      have hall0 : ∀ x ∈ rest, x = 0 := by
        intro x hx
        have hxle : x ≤ rest.sum := List.single_le_sum hrest_nn x hx
        have hx0 : 0 ≤ x := hrest_nn x hx
        linarith
      exact TrafficLight.foldl_update_zero k rest _ rfl rfl (by simp [hnext]) rfl hall0
    · rw [if_neg (fun hh => hc hh.2.2)]
      push_neg at hc
      refine ih _ htr hst hnext (fun x hx => hnn x (List.mem_cons_of_mem d hx)) ?_ ?_
      · show l.time_in_phase + d + rest.sum = l.yellow_time
        exact hsum'
      · linarith

/-- C6: `TrafficLight.update dt` always adds `dt` to `time_in_phase`, and
exactly when the light is transitioning with raw state YELLOW and the
accumulated `time_in_phase` reaches `yellow_time` it commits the pending
phase index, sets the raw state to GREEN, resets `time_in_phase` to 0 and
clears the transition flags; consequently, after a granted
`request_phase_change`, nonnegative updates totalling `yellow_time` land the
light in the requested phase, GREEN, with `time_in_phase` 0. -/
theorem trafficLight_update_accumulate_commit (l : TrafficLight) (dt : ℝ) :
    (¬ (l.transitioning = true ∧ l.state = .YELLOW ∧
          l.yellow_time ≤ l.time_in_phase + dt) →
      l.update dt = { l with time_in_phase := l.time_in_phase + dt }) ∧
    (l.transitioning = true → l.state = .YELLOW → l.yellow_time ≤ l.time_in_phase + dt →
      l.update dt = { l with
        current_phase_index := l.next_phase_index.getD l.current_phase_index,
        state := .GREEN,
        time_in_phase := 0,
        transitioning := false,
        next_phase_index := none }) ∧
    (∀ (i : ℤ) (l' : TrafficLight) (dts : List ℝ),
      l.request_phase_change i = .ok (l', true) →
      (∀ d ∈ dts, 0 ≤ d) → dts.sum = l.yellow_time → 0 < l.yellow_time →
      ((dts.foldl TrafficLight.update l').state = .GREEN ∧
       (dts.foldl TrafficLight.update l').current_phase_index = i.toNat ∧
       (dts.foldl TrafficLight.update l').time_in_phase = 0)) := by
  refine ⟨?_, ?_, ?_⟩
  · intro h
    rw [TrafficLight.update_eq, if_neg h]
  · intro h1 h2 h3
    rw [TrafficLight.update_eq, if_pos ⟨h1, h2, h3⟩]
  · intro i l' dts hreq hnn hsum hy
    have hl' : l' = { l with
        state := .YELLOW,
        transitioning := true,
        next_phase_index := some i.toNat,
        time_in_phase := 0 } := by
      unfold TrafficLight.request_phase_change at hreq
      split_ifs at hreq
      all_goals first
        | exact Except.noConfusion hreq
        | (rw [Except.ok.injEq, Prod.mk.injEq] at hreq
           exact hreq.1.symm)
        | (rw [Except.ok.injEq, Prod.mk.injEq] at hreq
           exact absurd hreq.2 (by simp))
    subst hl'
    refine TrafficLight.yellow_countdown i.toNat dts _ rfl rfl rfl hnn ?_ ?_
    · simpa using hsum
    · rw [hsum]; exact hy

/-- Witness for C6: granting a phase change on the concrete light `exLight`
and then updating for exactly the three-second yellow interval lands the
light in phase 1, GREEN, with a reset accumulator. -/
theorem trafficLight_update_accumulate_commit_witness :
    exLight.request_phase_change 1 = .ok (exLightYellow, true) ∧
    (([3] : List ℝ).foldl TrafficLight.update exLightYellow).state = .GREEN ∧
    (([3] : List ℝ).foldl TrafficLight.update exLightYellow).current_phase_index = 1 ∧
    (([3] : List ℝ).foldl TrafficLight.update exLightYellow).time_in_phase = 0 := by
  have hreq : exLight.request_phase_change 1 = .ok (exLightYellow, true) := by
    norm_num [TrafficLight.request_phase_change, TrafficLight.can_change_phase,
      exLight, exLightYellow, TrafficLight.init]
  have h := (trafficLight_update_accumulate_commit exLight 3).2.2 1 exLightYellow [3] hreq
    (by intro d hd; simp at hd; simp [hd])
    (by norm_num [exLight, TrafficLight.init])
    (by norm_num [exLight, TrafficLight.init])
  exact ⟨hreq, h.1, h.2.1, h.2.2⟩

/-- One `Vehicle.update` clamps the new speed into `[0, max_speed]` and does
not change `max_speed`. -/
theorem Vehicle.update_speed_mem (v : Vehicle) (dt : ℝ) (hms : 0 ≤ v.max_speed) :
    0 ≤ (v.update dt).speed ∧ (v.update dt).speed ≤ (v.update dt).max_speed ∧
      (v.update dt).max_speed = v.max_speed := by
  refine ⟨le_max_left 0 _, ?_, rfl⟩
  exact max_le hms (min_le_right _ _)

/-- C7: for every vehicle whose speed starts in `[0, max_speed]`, after any
number of `Vehicle.update` calls with arbitrary stored accelerations the speed
remains in `[0, max_speed]`, because `update` clamps the integrated speed into
that interval before integrating position. -/
theorem vehicle_speed_always_in_range (v : Vehicle) (ops : List (ℝ × ℝ))
    (h0 : 0 ≤ v.speed) (h1 : v.speed ≤ v.max_speed) :
    0 ≤ (v.run_updates ops).speed ∧
      (v.run_updates ops).speed ≤ (v.run_updates ops).max_speed := by
  induction ops generalizing v with
  | nil => exact ⟨h0, h1⟩
  | cons p rest ih =>
    show 0 ≤ (Vehicle.run_updates _ rest).speed ∧ _
    have hms : (0:ℝ) ≤ v.max_speed := le_trans h0 h1
    have hstep := Vehicle.update_speed_mem { v with acceleration := p.1 } p.2 hms
    exact ih _ hstep.1 (hstep.2.2 ▸ hstep.2.1)

/-- Witness for C7: the fixture vehicle, hit with a huge acceleration and then
a huge braking request, keeps its speed within `[0, max_speed]`. -/
theorem vehicle_speed_always_in_range_witness :
    0 ≤ (exVehicle.run_updates [(1000, 1), (-1000, 1)]).speed ∧
      (exVehicle.run_updates [(1000, 1), (-1000, 1)]).speed ≤
        (exVehicle.run_updates [(1000, 1), (-1000, 1)]).max_speed := by
  refine vehicle_speed_always_in_range exVehicle [(1000, 1), (-1000, 1)] ?_ ?_
  · norm_num [exVehicle, Vehicle.init]
  · norm_num [exVehicle, Vehicle.init]

/-- Counterexample to C8: a vehicle cruising at 0.5 m/s — above the 0.2 m/s
stop threshold — still accrues wait time, because the code's wait-time test is
`speed < 1`, not `speed < STOP_THRESHOLD`. -/
theorem vehicle_wait_time_threshold_counterexample :
    (exVehicle.update 1).speed = 1/2 ∧
    ¬ ((exVehicle.update 1).speed < STOP_THRESHOLD) ∧
    (exVehicle.update 1).total_wait_time = exVehicle.total_wait_time + 1 := by
  have hspeed : (exVehicle.update 1).speed = 1/2 := by
    show max 0 (min (exVehicle.speed + exVehicle.acceleration * 1) exVehicle.max_speed) = 1/2
    norm_num [exVehicle, Vehicle.init]
  refine ⟨hspeed, ?_, ?_⟩
  · rw [hspeed]
    norm_num [STOP_THRESHOLD]
  · show (if max 0 (min (exVehicle.speed + exVehicle.acceleration * 1) exVehicle.max_speed) < 1
        then exVehicle.total_wait_time + 1 else exVehicle.total_wait_time) =
      exVehicle.total_wait_time + 1
    norm_num [exVehicle, Vehicle.init]

/-- C8 as amended: `Vehicle.update` accrues `dt` of wait time exactly when the
new clamped speed is below 1 m/s (a hard-coded threshold, not the 0.2 m/s
`STOP_THRESHOLD`), and increments the stop count exactly when the previous
speed was above `STOP_THRESHOLD` and the new speed is at or below it. -/
theorem vehicle_update_metrics_spec (v : Vehicle) (dt : ℝ) :
    ((v.update dt).total_wait_time =
      if (v.update dt).speed < 1 then v.total_wait_time + dt else v.total_wait_time) ∧
    ((v.update dt).total_stops =
      if STOP_THRESHOLD < v.previous_speed ∧ (v.update dt).speed ≤ STOP_THRESHOLD then
        v.total_stops + 1
      else v.total_stops) :=
  ⟨rfl, rfl⟩

/-- The cumulative-weight loop returns an element of its list whenever the
draw is at most the running total plus the remaining weight mass. -/
theorem select_od_pair_loop_selects (r : ℝ) (pairs : List (Nat × Nat × ℝ)) :
    ∀ cumulative : ℝ, pairs ≠ [] →
      r ≤ cumulative + (pairs.map (fun p => p.2.2)).sum →
      ∃ p ∈ pairs, select_od_pair_loop r cumulative pairs = .selected p := by
  induction pairs with
  | nil => intro c h _; exact absurd rfl h
  | cons p rest ih =>
    intro c _ hle
    unfold select_od_pair_loop
    by_cases hc : r ≤ c + p.2.2
    · rw [if_pos hc]
      exact ⟨p, List.mem_cons_self p rest, rfl⟩
    · rw [if_neg hc]
      push_neg at hc
      have hrest_ne : rest ≠ [] := by
        intro h
        rw [h] at hle
        simp at hle
        linarith
      have hle' : r ≤ (c + p.2.2) + (rest.map (fun p => p.2.2)).sum := by
        rw [List.map_cons, List.sum_cons] at hle
        linarith
      obtain ⟨w, hw, hsel⟩ := ih (c + p.2.2) hrest_ne hle'
      exact ⟨w, List.mem_cons_of_mem p hw, hsel⟩

/-- C10: for every non-empty origin-destination list with strictly positive
weights and a uniform draw `r ∈ [0, total_weight]`, `_select_od_pair` returns
an element of the list from inside its cumulative-weight loop; the trailing
fallback line (which reads the nonexistent attribute `self.od_pairs` and
would raise) is unreachable. -/
theorem select_od_pair_selects_member (pairs : List (Nat × Nat × ℝ)) (r : ℝ)
    (hne : pairs ≠ []) (hpos : ∀ p ∈ pairs, 0 < p.2.2)
    (h0 : 0 ≤ r) (hr : r ≤ (pairs.map (fun p => p.2.2)).sum) :
    ∃ p ∈ pairs, select_od_pair pairs r = .selected p := by
  unfold select_od_pair
  rw [if_neg hne]
  exact select_od_pair_loop_selects r pairs 0 hne (by simpa using hr)

/-- Witness for C10: with pairs weighted 2 and 1 and the draw 5/2, the second
pair is selected and the fallback is not reached. -/
theorem select_od_pair_selects_member_witness :
    ∃ p ∈ [((0:Nat), (1:Nat), (2:ℝ)), (2, 3, 1)],
      select_od_pair [((0:Nat), (1:Nat), (2:ℝ)), (2, 3, 1)] (5/2) = .selected p := by
  refine select_od_pair_selects_member _ _ (by simp) ?_ (by norm_num) ?_
  · intro p hp
    simp only [List.mem_cons, List.not_mem_nil, or_false] at hp
    rcases hp with rfl | rfl <;> norm_num
  · norm_num

/-- Detaching a vehicle from its lane touches only the road network. -/
theorem Simulation.detachFromLane_lists (s : Simulation) (v : Vehicle) :
    (s.detachFromLane v).vehicles = s.vehicles ∧
    (s.detachFromLane v).completed_vehicles = s.completed_vehicles ∧
    (s.detachFromLane v).next_vehicle_id = s.next_vehicle_id := by
  unfold Simulation.detachFromLane
  split <;> exact ⟨rfl, rfl, rfl⟩

/-- Archiving a vehicle moves at most one record from the active list to the
completed archive: the two counts have a constant sum, the identifier counter
is untouched, and the completed count never drops. -/
theorem Simulation.remove_vehicle_counts (s : Simulation) (v : Vehicle) :
    (s.remove_vehicle v).completed_vehicles.length + (s.remove_vehicle v).vehicles.length =
      s.completed_vehicles.length + s.vehicles.length ∧
    (s.remove_vehicle v).next_vehicle_id = s.next_vehicle_id ∧
    s.completed_vehicles.length ≤ (s.remove_vehicle v).completed_vehicles.length := by
  obtain ⟨h1, h2, h3⟩ := Simulation.detachFromLane_lists s v
  simp only [Simulation.remove_vehicle]
  split_ifs with hany
  · rw [h1] at hany
    obtain ⟨w, hw, hpw⟩ := List.any_eq_true.mp hany
    have hlen : (s.vehicles.eraseP (fun w => w.vehicle_id == v.vehicle_id)).length + 1 =
        s.vehicles.length := List.length_eraseP_add_one hw hpw
    refine ⟨?_, h3, ?_⟩
    · rw [h1, h2]
      simp only [List.length_concat]
      omega
    · rw [h2]
      simp [List.length_concat]
  · exact ⟨by rw [h1, h2], h3, le_of_eq (congrArg List.length h2.symm)⟩

/-- A road transition conserves the active/completed sum, keeps the
identifier counter, and never drops the completed count. -/
theorem Simulation.handle_road_transition_counts (s : Simulation) (v : Vehicle) :
    (s.handle_road_transition v).completed_vehicles.length +
        (s.handle_road_transition v).vehicles.length =
      s.completed_vehicles.length + s.vehicles.length ∧
    (s.handle_road_transition v).next_vehicle_id = s.next_vehicle_id ∧
    s.completed_vehicles.length ≤ (s.handle_road_transition v).completed_vehicles.length := by
  simp only [Simulation.handle_road_transition]
  split
  · exact ⟨rfl, rfl, le_refl _⟩
  · split_ifs with hfin
    · refine ⟨(Simulation.remove_vehicle_counts _ _).1.trans ?_,
        (Simulation.remove_vehicle_counts _ _).2.1.trans ?_,
        le_trans (le_of_eq ?_) ((Simulation.remove_vehicle_counts _ _).2.2)⟩
      · simp [Simulation.replaceVehicle]
      · simp [Simulation.replaceVehicle]
      · simp [Simulation.replaceVehicle]
    · split
      · exact ⟨by simp [Simulation.replaceVehicle], rfl, le_refl _⟩
      · split
        · exact ⟨by simp [Simulation.replaceVehicle], rfl, le_refl _⟩
        · exact ⟨by simp [Simulation.replaceVehicle], rfl, le_refl _⟩

/-- One end-of-road iteration conserves the counts likewise. -/
theorem Simulation.end_of_road_one_counts (s : Simulation) (vid : Nat) :
    (s.end_of_road_one vid).completed_vehicles.length +
        (s.end_of_road_one vid).vehicles.length =
      s.completed_vehicles.length + s.vehicles.length ∧
    (s.end_of_road_one vid).next_vehicle_id = s.next_vehicle_id ∧
    s.completed_vehicles.length ≤ (s.end_of_road_one vid).completed_vehicles.length := by
  simp only [Simulation.end_of_road_one]
  split
  · exact ⟨rfl, rfl, le_refl _⟩
  · split
    · exact ⟨rfl, rfl, le_refl _⟩
    · split_ifs
      · exact Simulation.handle_road_transition_counts s _
      · exact ⟨rfl, rfl, le_refl _⟩
      · exact ⟨by simp [Simulation.replaceVehicle], rfl, le_refl _⟩
      · exact ⟨rfl, rfl, le_refl _⟩

/-- The whole end-of-road loop conserves the counts. -/
theorem Simulation.end_of_road_fold_counts (ids : List Nat) :
    ∀ s : Simulation,
      (ids.foldl Simulation.end_of_road_one s).completed_vehicles.length +
          (ids.foldl Simulation.end_of_road_one s).vehicles.length =
        s.completed_vehicles.length + s.vehicles.length ∧
      (ids.foldl Simulation.end_of_road_one s).next_vehicle_id = s.next_vehicle_id ∧
      s.completed_vehicles.length ≤
        (ids.foldl Simulation.end_of_road_one s).completed_vehicles.length := by
  induction ids with
  | nil => exact fun s => ⟨rfl, rfl, le_refl _⟩
  | cons i rest ih =>
    intro s
    rw [List.foldl_cons]
    obtain ⟨h1, h2, h3⟩ := Simulation.end_of_road_one_counts s i
    obtain ⟨g1, g2, g3⟩ := ih (s.end_of_road_one i)
    exact ⟨g1.trans h1, g2.trans h2, le_trans h3 g3⟩

/-- One physics iteration leaves the bookkeeping untouched. -/
theorem Simulation.physics_one_counts (s : Simulation) (vid : Nat) :
    (s.physics_one vid).vehicles.length = s.vehicles.length ∧
    (s.physics_one vid).completed_vehicles = s.completed_vehicles ∧
    (s.physics_one vid).next_vehicle_id = s.next_vehicle_id := by
  simp only [Simulation.physics_one]
  split
  · exact ⟨rfl, rfl, rfl⟩
  · exact ⟨by simp [Simulation.replaceVehicle], rfl, rfl⟩

/-- The whole physics loop leaves the bookkeeping untouched. -/
theorem Simulation.physics_fold_counts (ids : List Nat) :
    ∀ s : Simulation,
      (ids.foldl Simulation.physics_one s).vehicles.length = s.vehicles.length ∧
      (ids.foldl Simulation.physics_one s).completed_vehicles = s.completed_vehicles ∧
      (ids.foldl Simulation.physics_one s).next_vehicle_id = s.next_vehicle_id := by
  induction ids with
  | nil => exact fun s => ⟨rfl, rfl, rfl⟩
  | cons i rest ih =>
    intro s
    rw [List.foldl_cons]
    obtain ⟨h1, h2, h3⟩ := Simulation.physics_one_counts s i
    obtain ⟨g1, g2, g3⟩ := ih (s.physics_one i)
    exact ⟨g1.trans h1, g2.trans h2, g3.trans h3⟩

/-- A spawn attempt either fails leaving everything unchanged or adds one
active vehicle and bumps the identifier counter by one; the archive is never
touched. -/
theorem Simulation.spawn_vehicle_counts (s : Simulation) (a b d lane : Nat)
    (len ms dsf mg th ma md : ℝ) :
    (s.spawn_vehicle a b d lane len ms dsf mg th ma md).completed_vehicles =
      s.completed_vehicles ∧
    ((s.spawn_vehicle a b d lane len ms dsf mg th ma md).completed_vehicles.length +
        (s.spawn_vehicle a b d lane len ms dsf mg th ma md).vehicles.length) +
      s.next_vehicle_id =
      (s.completed_vehicles.length + s.vehicles.length) +
        (s.spawn_vehicle a b d lane len ms dsf mg th ma md).next_vehicle_id := by
  simp only [Simulation.spawn_vehicle]
  split
  · exact ⟨rfl, rfl⟩
  · split
    · exact ⟨rfl, rfl⟩
    · split_ifs
      · exact ⟨rfl, rfl⟩
      · refine ⟨rfl, ?_⟩
        simp only [List.length_concat]
        omega

/-- A whole step conserves the counts and never drops the completed count. -/
theorem Simulation.step_counts (s : Simulation) :
    (s.step).completed_vehicles.length + (s.step).vehicles.length =
      s.completed_vehicles.length + s.vehicles.length ∧
    (s.step).next_vehicle_id = s.next_vehicle_id ∧
    s.completed_vehicles.length ≤ (s.step).completed_vehicles.length := by
  obtain ⟨p1, p2, p3⟩ := Simulation.physics_fold_counts
    ((s.update_traffic_lights).vehicles.map (fun v => v.vehicle_id)) (s.update_traffic_lights)
  obtain ⟨e1, e2, e3⟩ := Simulation.end_of_road_fold_counts
    (((s.update_traffic_lights).physics_pass).vehicles.map (fun v => v.vehicle_id))
    ((s.update_traffic_lights).physics_pass)
  have hp2 := congrArg List.length p2
  have hu1 : (s.update_traffic_lights).vehicles.length = s.vehicles.length := rfl
  have hu2 : (s.update_traffic_lights).completed_vehicles.length =
      s.completed_vehicles.length := rfl
  have hu3 : (s.update_traffic_lights).next_vehicle_id = s.next_vehicle_id := rfl
  have hstep1 : (s.step).completed_vehicles.length =
      ((s.update_traffic_lights).physics_pass.end_of_road_pass).completed_vehicles.length := rfl
  have hstep2 : (s.step).vehicles.length =
      ((s.update_traffic_lights).physics_pass.end_of_road_pass).vehicles.length := rfl
  have hstep3 : (s.step).next_vehicle_id =
      ((s.update_traffic_lights).physics_pass.end_of_road_pass).next_vehicle_id := rfl
  unfold Simulation.end_of_road_pass Simulation.physics_pass at *
  refine ⟨?_, ?_, ?_⟩ <;> omega

/-- Every manual interaction keeps `completed + active − spawned` balanced and
never drops the completed count. -/
theorem Simulation.apply_op_counts (s : Simulation) (op : SimOp) :
    ((s.apply_op op).completed_vehicles.length + (s.apply_op op).vehicles.length) +
        s.next_vehicle_id =
      (s.completed_vehicles.length + s.vehicles.length) + (s.apply_op op).next_vehicle_id ∧
    s.completed_vehicles.length ≤ (s.apply_op op).completed_vehicles.length := by
  cases op with
  | spawn a b d lane len ms dsf mg th ma md =>
    simp only [Simulation.apply_op]
    obtain ⟨h1, h2⟩ := Simulation.spawn_vehicle_counts s a b d lane len ms dsf mg th ma md
    exact ⟨h2, le_of_eq (congrArg List.length h1.symm)⟩
  | step =>
    simp only [Simulation.apply_op]
    obtain ⟨h1, h2, h3⟩ := Simulation.step_counts s
    exact ⟨by omega, h3⟩
  | transition vid =>
    simp only [Simulation.apply_op]
    split
    · exact ⟨rfl, le_refl _⟩
    · rename_i v heq
      obtain ⟨h1, h2, h3⟩ := Simulation.handle_road_transition_counts s v
      exact ⟨by omega, h3⟩

/-- C9: for every run built from `spawn_vehicle`, `step` and
`handle_road_transition` calls with no manual removals, the completed count
is monotonically non-decreasing, and completed + active equals the total
number of vehicles ever spawned (`next_vehicle_id`) at every tick boundary. -/
theorem simulation_vehicle_count_conservation (rn : RoadNetwork) (dt : ℝ)
    (ops : List SimOp) (op : SimOp) :
    ((Simulation.init rn dt).run_ops ops).completed_vehicles.length +
        ((Simulation.init rn dt).run_ops ops).vehicles.length =
      ((Simulation.init rn dt).run_ops ops).next_vehicle_id ∧
    ((Simulation.init rn dt).run_ops ops).completed_vehicles.length ≤
      ((Simulation.init rn dt).run_ops (ops ++ [op])).completed_vehicles.length := by
  have hinv : ∀ (ops' : List SimOp) (s : Simulation),
      s.completed_vehicles.length + s.vehicles.length = s.next_vehicle_id →
      (List.foldl Simulation.apply_op s ops').completed_vehicles.length +
          (List.foldl Simulation.apply_op s ops').vehicles.length =
        (List.foldl Simulation.apply_op s ops').next_vehicle_id := by
    intro ops'
    induction ops' with
    | nil => exact fun s h => h
    | cons o rest ih =>
      intro s h
      rw [List.foldl_cons]
      apply ih
      have := (Simulation.apply_op_counts s o).1
      omega
  constructor
  · exact hinv ops (Simulation.init rn dt) rfl
  · show (List.foldl Simulation.apply_op (Simulation.init rn dt) ops).completed_vehicles.length ≤
      (List.foldl Simulation.apply_op (Simulation.init rn dt) (ops ++ [op])).completed_vehicles.length
    rw [List.foldl_append, List.foldl_cons, List.foldl_nil]
    exact (Simulation.apply_op_counts _ op).2

/-- C2: `compute_acceleration` implements IDM with a virtual red-light
leader.  With both a physical leader and a virtual red-light leader present
the smaller gap governs (at a tie the physical leader does); with one
constraint it governs; with neither the result is the pure free-flow term
with no interaction term.  A non-GREEN light within detection distance
produces the virtual gap `max(distance_to_stop_line − stop_line_offset, 0)`
closed at the vehicle's own speed. -/
theorem compute_acceleration_idm_spec (s : Simulation) (v : Vehicle) :
    (∀ g lv, s.check_traffic_light v = some g → s.get_leading_vehicle v = some lv →
      s.compute_acceleration v =
        (if g < lv.position - v.position - v.length then
          v.max_acceleration * ((1 - (v.speed / v.desired_speed) ^ 4) -
            ((v.min_gap + v.speed * v.time_headway +
                v.speed * v.speed /
                  (2 * Real.sqrt (v.max_acceleration * v.max_deceleration))) /
              max g 0.1) ^ 2)
        else
          v.max_acceleration * ((1 - (v.speed / v.desired_speed) ^ 4) -
            ((v.min_gap + v.speed * v.time_headway +
                v.speed * (v.speed - lv.speed) /
                  (2 * Real.sqrt (v.max_acceleration * v.max_deceleration))) /
              max (lv.position - v.position - v.length) 0.1) ^ 2))) ∧
    (∀ g, s.check_traffic_light v = some g → s.get_leading_vehicle v = none →
      s.compute_acceleration v =
        v.max_acceleration * ((1 - (v.speed / v.desired_speed) ^ 4) -
          ((v.min_gap + v.speed * v.time_headway +
              v.speed * v.speed /
                (2 * Real.sqrt (v.max_acceleration * v.max_deceleration))) /
            max g 0.1) ^ 2)) ∧
    (∀ lv, s.check_traffic_light v = none → s.get_leading_vehicle v = some lv →
      s.compute_acceleration v =
        v.max_acceleration * ((1 - (v.speed / v.desired_speed) ^ 4) -
          ((v.min_gap + v.speed * v.time_headway +
              v.speed * (v.speed - lv.speed) /
                (2 * Real.sqrt (v.max_acceleration * v.max_deceleration))) /
            max (lv.position - v.position - v.length) 0.1) ^ 2)) ∧
    (s.check_traffic_light v = none → s.get_leading_vehicle v = none →
      s.compute_acceleration v =
        v.max_acceleration * (1 - (v.speed / v.desired_speed) ^ 4)) ∧
    (∀ road tl, s.road_network.get_road v.current_road = some road →
      s.road_network.light_at v.current_road.2 = some tl →
      road.length - v.position ≤ INTERSECTION_DETECTION_DISTANCE →
      tl.get_state_for_road v.current_road.1 v.current_road.2 ≠ .GREEN →
      s.check_traffic_light v =
        some (max (road.length - v.position - STOP_LINE_OFFSET) 0)) := by
  refine ⟨?_, ?_, ?_, ?_, ?_⟩
  · intro g lv h1 h2
    simp only [Simulation.compute_acceleration, h1, h2, idm_acceleration, IDM_DELTA]
  · intro g h1 h2
    simp only [Simulation.compute_acceleration, h1, h2, idm_acceleration, IDM_DELTA]
  · intro lv h1 h2
    simp only [Simulation.compute_acceleration, h1, h2, idm_acceleration, IDM_DELTA]
  · intro h1 h2
    simp only [Simulation.compute_acceleration, h1, h2, IDM_DELTA]
  · intro road tl h1 h2 h3 h4
    simp only [Simulation.check_traffic_light, h1, h2]
    rw [if_neg (not_lt.mpr h3), if_neg h4]

/-- Witness for C2: in the concrete state `exC2`, vehicle 0 sees both a
13 m virtual red-light gap and the parked leader, and its acceleration is the
governed IDM value. -/
theorem compute_acceleration_idm_spec_witness :
    Simulation.check_traffic_light exC2 exC2v = some 13 ∧
    Simulation.get_leading_vehicle exC2 exC2v = some exC2lead ∧
    Simulation.compute_acceleration exC2 exC2v =
      (if (13:ℝ) < exC2lead.position - exC2v.position - exC2v.length then
        exC2v.max_acceleration * ((1 - (exC2v.speed / exC2v.desired_speed) ^ 4) -
          ((exC2v.min_gap + exC2v.speed * exC2v.time_headway +
              exC2v.speed * exC2v.speed /
                (2 * Real.sqrt (exC2v.max_acceleration * exC2v.max_deceleration))) /
            max (13:ℝ) 0.1) ^ 2)
      else
        exC2v.max_acceleration * ((1 - (exC2v.speed / exC2v.desired_speed) ^ 4) -
          ((exC2v.min_gap + exC2v.speed * exC2v.time_headway +
              exC2v.speed * (exC2v.speed - exC2lead.speed) /
                (2 * Real.sqrt (exC2v.max_acceleration * exC2v.max_deceleration))) /
            max (exC2lead.position - exC2v.position - exC2v.length) 0.1) ^ 2)) := by
  have h1 : Simulation.check_traffic_light exC2 exC2v = some 13 := by
    norm_num [Simulation.check_traffic_light, RoadNetwork.get_road, RoadNetwork.light_at,
      TrafficLight.get_state_for_road, Phase.is_green, TrafficLight.current_phase,
      exC2, exC2road, exC2light, exC2v, TrafficLight.init, Vehicle.init,
      INTERSECTION_DETECTION_DISTANCE, STOP_LINE_OFFSET, List.find?]
    exact fun h => absurd h (by decide)
  have h2 : Simulation.get_leading_vehicle exC2 exC2v = some exC2lead := by
    norm_num [Simulation.get_leading_vehicle, Simulation.laneVehicles, RoadNetwork.get_road,
      Simulation.findVehicle, sortByPosition, insertByPosition, exC2, exC2road, exC2v,
      exC2lead, Vehicle.init, List.find?, List.filterMap, List.getD]
  exact ⟨h1, h2, (compute_acceleration_idm_spec exC2 exC2v).1 13 exC2lead h1 h2⟩

/-- Clamping an acceleration does not change a vehicle's identifier. -/
@[simp] theorem Vehicle.set_acceleration_vehicle_id (v : Vehicle) (a : ℝ) :
    (v.set_acceleration a).vehicle_id = v.vehicle_id := rfl

/-- One integration step does not change a vehicle's identifier. -/
@[simp] theorem Vehicle.update_vehicle_id (v : Vehicle) (dt : ℝ) :
    (v.update dt).vehicle_id = v.vehicle_id := rfl

/-- Counterexample to C1: on the concrete two-vehicle state `exSeq`, the
in-place per-vehicle loop of `Simulation.step` and the frozen-snapshot
synchronous update produce different post-step states — the follower's IDM
acceleration observes the leader's already-advanced position. -/
theorem physics_pass_sequential_ne_synchronous :
    Simulation.physics_pass exSeq ≠ Simulation.physics_pass_synchronous exSeq := by
  have hlightA : Simulation.check_traffic_light exSeq exSeqA = none := by
    norm_num [Simulation.check_traffic_light, RoadNetwork.get_road, exSeq, exSeqRoad,
      exSeqA, Vehicle.init, INTERSECTION_DETECTION_DISTANCE, List.find?]
  have hleadA : Simulation.get_leading_vehicle exSeq exSeqA = none := by
    norm_num [Simulation.get_leading_vehicle, Simulation.laneVehicles, RoadNetwork.get_road,
      Simulation.findVehicle, sortByPosition, insertByPosition, exSeq, exSeqRoad, exSeqA,
      exSeqB, Vehicle.init, List.find?, List.filterMap, List.getD]
  have haccA : Simulation.compute_acceleration exSeq exSeqA = 0 := by
    simp only [Simulation.compute_acceleration, hleadA, hlightA]
    norm_num [exSeqA, Vehicle.init, IDM_DELTA]
  have hnewA : (exSeqA.set_acceleration
      (Simulation.compute_acceleration exSeq exSeqA)).update exSeq.dt = exSeqA1 := by
    rw [haccA]
    norm_num [Vehicle.set_acceleration, Vehicle.update, exSeqA, exSeqA1, Vehicle.init,
      exSeq, STOP_THRESHOLD, min_def, max_def]
  have e3 : Simulation.physics_one exSeq 0 = exSeqMid := by
    have h1 : exSeq.findVehicle 0 = some exSeqA := rfl
    simp only [Simulation.physics_one, h1]
    rw [hnewA]
    norm_num [Simulation.replaceVehicle, exSeq, exSeqMid, exSeqA, exSeqA1, exSeqB,
      Vehicle.init]
  have hlightB1 : Simulation.check_traffic_light exSeqMid exSeqB = none := by
    norm_num [Simulation.check_traffic_light, RoadNetwork.get_road, exSeq, exSeqMid,
      exSeqRoad, exSeqB, Vehicle.init, INTERSECTION_DETECTION_DISTANCE, List.find?]
  have hleadB1 : Simulation.get_leading_vehicle exSeqMid exSeqB = some exSeqA1 := by
    norm_num [Simulation.get_leading_vehicle, Simulation.laneVehicles, RoadNetwork.get_road,
      Simulation.findVehicle, sortByPosition, insertByPosition, exSeq, exSeqMid, exSeqRoad,
      exSeqA, exSeqA1, exSeqB, Vehicle.init, List.find?, List.filterMap, List.getD]
  have haccB1 : Simulation.compute_acceleration exSeqMid exSeqB = -(144/3025) := by
    simp only [Simulation.compute_acceleration, hleadB1, hlightB1, idm_acceleration]
    norm_num [exSeqA, exSeqA1, exSeqB, Vehicle.init, IDM_DELTA, Real.sqrt_one,
      min_def, max_def]
  have hnewBseq : (exSeqB.set_acceleration
      (Simulation.compute_acceleration exSeqMid exSeqB)).update exSeqMid.dt = exSeqBseq := by
    rw [haccB1]
    norm_num [Vehicle.set_acceleration, Vehicle.update, exSeqB, exSeqBseq, Vehicle.init,
      exSeq, exSeqMid, STOP_THRESHOLD, min_def, max_def]
  have e9 : Simulation.physics_one exSeqMid 1 = { exSeq with vehicles := [exSeqA1, exSeqBseq] } := by
    have h1 : exSeqMid.findVehicle 1 = some exSeqB := rfl
    simp only [Simulation.physics_one, h1]
    rw [hnewBseq]
    norm_num [Simulation.replaceVehicle, exSeq, exSeqMid, exSeqA, exSeqA1, exSeqB,
      exSeqBseq, Vehicle.init]
  have hseq : Simulation.physics_pass exSeq = { exSeq with vehicles := [exSeqA1, exSeqBseq] } := by
    have hpass : Simulation.physics_pass exSeq =
        Simulation.physics_one (Simulation.physics_one exSeq 0) 1 := rfl
    rw [hpass, e3, e9]
  have hlightB0 : Simulation.check_traffic_light exSeq exSeqB = none := by
    norm_num [Simulation.check_traffic_light, RoadNetwork.get_road, exSeq, exSeqRoad,
      exSeqB, Vehicle.init, INTERSECTION_DETECTION_DISTANCE, List.find?]
  have hleadB0 : Simulation.get_leading_vehicle exSeq exSeqB = some exSeqA := by
    norm_num [Simulation.get_leading_vehicle, Simulation.laneVehicles, RoadNetwork.get_road,
      Simulation.findVehicle, sortByPosition, insertByPosition, exSeq, exSeqRoad, exSeqA,
      exSeqB, Vehicle.init, List.find?, List.filterMap, List.getD]
  have haccB0 : Simulation.compute_acceleration exSeq exSeqB = -(144/2025) := by
    simp only [Simulation.compute_acceleration, hleadB0, hlightB0, idm_acceleration]
    norm_num [exSeqA, exSeqB, Vehicle.init, IDM_DELTA, Real.sqrt_one, min_def, max_def]
  have hnewBsync : (exSeqB.set_acceleration
      (Simulation.compute_acceleration exSeq exSeqB)).update exSeq.dt = exSeqBsync := by
    rw [haccB0]
    norm_num [Vehicle.set_acceleration, Vehicle.update, exSeqB, exSeqBsync, Vehicle.init,
      exSeq, STOP_THRESHOLD, min_def, max_def]
  have hsync : Simulation.physics_pass_synchronous exSeq =
      { exSeq with vehicles := [exSeqA1, exSeqBsync] } := by
    simp only [Simulation.physics_pass_synchronous]
    have hv : exSeq.vehicles = [exSeqA, exSeqB] := rfl
    rw [hv]
    simp only [List.map_cons, List.map_nil]
    rw [hnewA, hnewBsync]
  intro h
  rw [hseq, hsync] at h
  have h3 : exSeqBseq.speed = exSeqBsync.speed :=
    congrArg (fun st => ((st.vehicles).getD 1 exSeqA).speed) h
  norm_num [exSeqBseq, exSeqBsync, exSeqB, Vehicle.init] at h3

/-- C1 as amended: the physics loop of `Simulation.step` is sequential and in
place — each vehicle's acceleration is computed from the state in which all
earlier-listed vehicles are already integrated — so it coincides with the
frozen-snapshot synchronous update when at most one vehicle is active, but
not in general. -/
theorem physics_pass_synchronous_when_at_most_one_vehicle (s : Simulation)
    (h : s.vehicles.length ≤ 1) :
    s.physics_pass = s.physics_pass_synchronous := by
  obtain ⟨rn, dt, t, vs, cv, nid⟩ := s
  rcases vs with _ | ⟨v, _ | ⟨w, rest⟩⟩
  · rfl
  · simp [Simulation.physics_pass, Simulation.physics_pass_synchronous,
      Simulation.physics_one, Simulation.findVehicle, Simulation.replaceVehicle,
      List.find?]
  · simp only [List.length_cons] at h
    omega

/-- Witness for the amended C1: on the one-vehicle state `exSolo` the two
updates agree. -/
theorem physics_pass_synchronous_when_at_most_one_vehicle_witness :
    Simulation.physics_pass exSolo = Simulation.physics_pass_synchronous exSolo :=
  physics_pass_synchronous_when_at_most_one_vehicle exSolo (by simp [exSolo])

/-- Key-frame law for `set_road`: looking up any road after an overwrite
yields the overwriting record under the overwritten key and is otherwise
unchanged. -/
theorem RoadNetwork.get_road_set_road (n : RoadNetwork) (rid rid' : Nat × Nat) (r : Road) :
    (n.set_road rid r).get_road rid' =
      if rid' = rid then (n.get_road rid').map (fun _ => r) else n.get_road rid' := by
  obtain ⟨roads, lights, sr⟩ := n
  simp only [RoadNetwork.set_road, RoadNetwork.get_road]
  induction roads with
  | nil => by_cases h : rid' = rid <;> simp [h]
  | cons p tl ih =>
    simp only [List.map_cons]
    by_cases h1 : p.1 = rid
    · rw [if_pos h1]
      by_cases h2 : rid' = rid
      · subst h2
        rw [List.find?_cons_of_pos _ (by simp), List.find?_cons_of_pos _ (by simp [h1])]
        simp [if_pos rfl]
      · rw [List.find?_cons_of_neg _ (by simp; exact fun hc => h2 hc.symm),
          List.find?_cons_of_neg _ (by simp [h1]; exact fun hc => h2 hc.symm)]
        rw [if_neg h2] at ih ⊢
        exact ih
    · rw [if_neg h1]
      by_cases h3 : p.1 = rid'
      · have h2 : ¬ rid' = rid := fun hc => h1 (h3.trans hc)
        rw [List.find?_cons_of_pos _ (by simp [h3]), List.find?_cons_of_pos _ (by simp [h3])]
        rw [if_neg h2]
      · rw [List.find?_cons_of_neg _ (by simp [h3]), List.find?_cons_of_neg _ (by simp [h3])]
        by_cases h2 : rid' = rid
        · rw [if_pos h2] at ih ⊢
          exact ih
        · rw [if_neg h2] at ih ⊢
          exact ih

/-- Every `end_of_road_one` branch only rewrites roads via `set_road`, so the
lights are untouched; the same holds for its callees. -/
theorem Simulation.detachFromLane_lights (s : Simulation) (v : Vehicle) :
    (s.detachFromLane v).road_network.lights = s.road_network.lights := by
  unfold Simulation.detachFromLane
  split <;> rfl

/-- Archiving a vehicle does not touch the lights. -/
theorem Simulation.remove_vehicle_lights (s : Simulation) (v : Vehicle) :
    (s.remove_vehicle v).road_network.lights = s.road_network.lights := by
  simp only [Simulation.remove_vehicle]
  split_ifs <;> exact Simulation.detachFromLane_lights s v

/-- A road transition does not touch the lights. -/
theorem Simulation.handle_road_transition_lights (s : Simulation) (v : Vehicle) :
    (s.handle_road_transition v).road_network.lights = s.road_network.lights := by
  simp only [Simulation.handle_road_transition]
  split
  · rfl
  · split_ifs
    · exact (Simulation.remove_vehicle_lights _ _).trans rfl
    · split
      · rfl
      · split <;> rfl

/-- One end-of-road iteration does not touch the lights. -/
theorem Simulation.end_of_road_one_lights (s : Simulation) (vid : Nat) :
    (s.end_of_road_one vid).road_network.lights = s.road_network.lights := by
  simp only [Simulation.end_of_road_one]
  split
  · rfl
  · split
    · rfl
    · split_ifs
      · exact Simulation.handle_road_transition_lights s _
      · rfl
      · rfl
      · rfl

/-- Lane surgery preserves a road's length. -/
theorem Road.removeFromLane_length (r : Road) (lane vid : Nat) :
    (r.removeFromLane lane vid).length = r.length := rfl

/-- Lane surgery preserves a road's length. -/
theorem Road.appendToLane_length (r : Road) (lane vid : Nat) :
    (r.appendToLane lane vid).length = r.length := rfl

/-- A `set_road` overwrite with a record of the same length preserves every
road-length lookup. -/
theorem RoadNetwork.get_road_length_set_road (n : RoadNetwork) (rid : Nat × Nat)
    (road r : Road) (heq : n.get_road rid = some road) (hlen : r.length = road.length)
    (rid' : Nat × Nat) :
    ((n.set_road rid r).get_road rid').map (fun x => x.length) =
      (n.get_road rid').map (fun x => x.length) := by
  rw [RoadNetwork.get_road_set_road]
  by_cases h : rid' = rid
  · subst h
    rw [if_pos rfl, heq]
    simp [hlen]
  · rw [if_neg h]

/-- Detaching from a lane preserves every road-length lookup. -/
theorem Simulation.detachFromLane_road_length (s : Simulation) (v : Vehicle)
    (rid' : Nat × Nat) :
    ((s.detachFromLane v).road_network.get_road rid').map (fun x => x.length) =
      (s.road_network.get_road rid').map (fun x => x.length) := by
  unfold Simulation.detachFromLane
  split
  · rfl
  · rename_i road heq
    refine RoadNetwork.get_road_length_set_road _ _ road _ heq ?_ rid'
    rfl

/-- Archiving a vehicle preserves every road-length lookup. -/
theorem Simulation.remove_vehicle_road_length (s : Simulation) (v : Vehicle)
    (rid' : Nat × Nat) :
    ((s.remove_vehicle v).road_network.get_road rid').map (fun x => x.length) =
      (s.road_network.get_road rid').map (fun x => x.length) := by
  simp only [Simulation.remove_vehicle]
  split_ifs <;> exact Simulation.detachFromLane_road_length s v rid'

/-- A road transition preserves every road-length lookup. -/
theorem Simulation.handle_road_transition_road_length (s : Simulation) (v : Vehicle)
    (rid' : Nat × Nat) :
    ((s.handle_road_transition v).road_network.get_road rid').map (fun x => x.length) =
      (s.road_network.get_road rid').map (fun x => x.length) := by
  simp only [Simulation.handle_road_transition]
  split
  · rfl
  · rename_i old_road heq
    split_ifs with hfin
    · refine (Simulation.remove_vehicle_road_length _ _ rid').trans ?_
      refine RoadNetwork.get_road_length_set_road _ _ old_road _ heq ?_ rid'
      rfl
    · split
      · refine RoadNetwork.get_road_length_set_road _ _ old_road _ heq ?_ rid'
        rfl
      · rename_i next_road hnext
        split
        · refine RoadNetwork.get_road_length_set_road _ _ old_road _ heq ?_ rid'
          rfl
        · rename_i new_road hnew
          refine Eq.trans
            (RoadNetwork.get_road_length_set_road _ next_road new_road _ ?_ ?_ rid') ?_
          · exact hnew
          · rfl
          · refine RoadNetwork.get_road_length_set_road _ _ old_road _ heq ?_ rid'
            rfl

/-- One end-of-road iteration preserves every road-length lookup. -/
theorem Simulation.end_of_road_one_road_length (s : Simulation) (vid : Nat)
    (rid' : Nat × Nat) :
    ((s.end_of_road_one vid).road_network.get_road rid').map (fun x => x.length) =
      (s.road_network.get_road rid').map (fun x => x.length) := by
  simp only [Simulation.end_of_road_one]
  split
  · rfl
  · split
    · rfl
    · split_ifs
      · exact Simulation.handle_road_transition_road_length s _ rid'
      · rfl
      · rfl
      · rfl

/-- Replacing a vehicle with a record of a different identifier never changes
what a lookup of that other identifier finds. -/
theorem find_replace_ne (l : List Vehicle) (u : Vehicle) (k : Nat)
    (h : u.vehicle_id ≠ k) :
    (l.map (fun w => if w.vehicle_id = u.vehicle_id then u else w)).find?
        (fun w => w.vehicle_id = k) =
      l.find? (fun w => w.vehicle_id = k) := by
  induction l with
  | nil => rfl
  | cons w tl ih =>
    rw [List.map_cons]
    by_cases hw : w.vehicle_id = u.vehicle_id
    · rw [if_pos hw]
      rw [List.find?_cons_of_neg _ (by simp only [decide_eq_true_eq]; exact h),
        List.find?_cons_of_neg _ (by simp only [decide_eq_true_eq]; rw [hw]; exact h)]
      exact ih
    · rw [if_neg hw]
      by_cases hk : w.vehicle_id = k
      · rw [List.find?_cons_of_pos _ (by simp [hk]), List.find?_cons_of_pos _ (by simp [hk])]
      · rw [List.find?_cons_of_neg _ (by simp [hk]), List.find?_cons_of_neg _ (by simp [hk])]
        exact ih

/-- Replacing the found vehicle by a record with the looked-up identifier
makes the lookup find the replacement. -/
theorem find_replace_self (l : List Vehicle) (u v : Vehicle) (k : Nat)
    (hfind : l.find? (fun w => w.vehicle_id = k) = some v) (hu : u.vehicle_id = k) :
    (l.map (fun w => if w.vehicle_id = u.vehicle_id then u else w)).find?
        (fun w => w.vehicle_id = k) = some u := by
  induction l with
  | nil => exact absurd hfind (by simp)
  | cons w tl ih =>
    rw [List.map_cons]
    by_cases hk : w.vehicle_id = k
    · rw [List.find?_cons_of_pos _ (by simp [hk])] at hfind
      rw [if_pos (by rw [hk, hu])]
      rw [List.find?_cons_of_pos _ (by simp [hu])]
    · rw [List.find?_cons_of_neg _ (by simp [hk])] at hfind
      rw [if_neg (fun hc => hk (hc.trans hu))]
      rw [List.find?_cons_of_neg _ (by simp [hk])]
      exact ih hfind

/-- Erasing one identifier's record never changes what a lookup of a
different identifier finds. -/
theorem find_eraseP_ne (l : List Vehicle) (vid k : Nat) (h : vid ≠ k) :
    (l.eraseP (fun w => w.vehicle_id == vid)).find? (fun w => w.vehicle_id = k) =
      l.find? (fun w => w.vehicle_id = k) := by
  induction l with
  | nil => rfl
  | cons w tl ih =>
    by_cases hw : (w.vehicle_id == vid) = true
    · rw [List.eraseP_cons, hw, cond_true]
      have hwid : w.vehicle_id = vid := by simpa using hw
      rw [List.find?_cons_of_neg _ (by simp only [decide_eq_true_eq]; rw [hwid]; exact h)]
    · rw [List.eraseP_cons, Bool.of_not_eq_true hw, cond_false]
      by_cases hk : w.vehicle_id = k
      · rw [List.find?_cons_of_pos _ (by simp [hk]), List.find?_cons_of_pos _ (by simp [hk])]
      · rw [List.find?_cons_of_neg _ (by simp [hk]), List.find?_cons_of_neg _ (by simp [hk])]
        exact ih

/-- Replacing a vehicle record in place keeps the identifier sequence. -/
theorem map_id_replace (l : List Vehicle) (u : Vehicle) :
    (l.map (fun w => if w.vehicle_id = u.vehicle_id then u else w)).map
        (fun w => w.vehicle_id) =
      l.map (fun w => w.vehicle_id) := by
  rw [List.map_map]
  refine List.map_congr_left (fun w _ => ?_)
  by_cases hw : w.vehicle_id = u.vehicle_id
  · simp [Function.comp, hw]
  · simp [Function.comp, hw]

/-- Replacing another identifier's record leaves a lookup unchanged. -/
theorem Simulation.replaceVehicle_findVehicle_ne (s : Simulation) (u : Vehicle) (k : Nat)
    (h : u.vehicle_id ≠ k) :
    (s.replaceVehicle u).findVehicle k = s.findVehicle k :=
  find_replace_ne s.vehicles u k h

/-- Replacing the looked-up record makes the lookup find the replacement. -/
theorem Simulation.replaceVehicle_findVehicle_self (s : Simulation) (u v : Vehicle) (k : Nat)
    (hfind : s.findVehicle k = some v) (hu : u.vehicle_id = k) :
    (s.replaceVehicle u).findVehicle k = some u :=
  find_replace_self s.vehicles u v k hfind hu

/-- Lane detachment does not touch the vehicle store. -/
theorem Simulation.detachFromLane_findVehicle (s : Simulation) (v : Vehicle) (k : Nat) :
    (s.detachFromLane v).findVehicle k = s.findVehicle k := by
  unfold Simulation.detachFromLane
  split <;> rfl

/-- Archiving one vehicle leaves lookups of other identifiers unchanged. -/
theorem Simulation.remove_vehicle_findVehicle_ne (s : Simulation) (v : Vehicle) (k : Nat)
    (h : v.vehicle_id ≠ k) :
    (s.remove_vehicle v).findVehicle k = s.findVehicle k := by
  simp only [Simulation.remove_vehicle]
  split_ifs with hany
  · show (List.eraseP (fun w => w.vehicle_id == v.vehicle_id)
        (s.detachFromLane v).vehicles).find? (fun w => w.vehicle_id = k) = s.findVehicle k
    rw [(Simulation.detachFromLane_lists s v).1]
    exact find_eraseP_ne s.vehicles v.vehicle_id k h
  · exact Simulation.detachFromLane_findVehicle s v k

/-- Transitioning one vehicle leaves lookups of other identifiers unchanged. -/
theorem Simulation.handle_road_transition_findVehicle_ne (s : Simulation) (v : Vehicle)
    (k : Nat) (h : v.vehicle_id ≠ k) :
    (s.handle_road_transition v).findVehicle k = s.findVehicle k := by
  simp only [Simulation.handle_road_transition]
  split
  · rfl
  · rename_i old_road heq
    split_ifs with hfin
    · refine Eq.trans (Simulation.remove_vehicle_findVehicle_ne _ _ k ?_) ?_
      · exact h
      · refine Eq.trans (Simulation.replaceVehicle_findVehicle_ne _ _ k ?_) ?_
        · exact h
        · rfl
    · split
      · refine Eq.trans (Simulation.replaceVehicle_findVehicle_ne _ _ k ?_) ?_
        · exact h
        · rfl
      · split
        · refine Eq.trans (Simulation.replaceVehicle_findVehicle_ne _ _ k ?_) ?_
          · exact h
          · refine Eq.trans (Simulation.replaceVehicle_findVehicle_ne _ _ k ?_) ?_
            · exact h
            · rfl
        · rename_i new_road hnew
          refine Eq.trans (Simulation.replaceVehicle_findVehicle_ne _ _ k ?_) ?_
          · split <;> exact h
          · refine Eq.trans (Simulation.replaceVehicle_findVehicle_ne _ _ k ?_) ?_
            · exact h
            · rfl

/-- One end-of-road iteration for another identifier leaves a lookup
unchanged. -/
theorem Simulation.end_of_road_one_findVehicle_ne (s : Simulation) (j k : Nat) (h : j ≠ k) :
    (s.end_of_road_one j).findVehicle k = s.findVehicle k := by
  simp only [Simulation.end_of_road_one]
  split
  · rfl
  · rename_i v hfv
    have hvj : v.vehicle_id = j := by simpa using List.find?_some hfv
    split
    · rfl
    · rename_i road hroad
      split_ifs
      · exact Simulation.handle_road_transition_findVehicle_ne s v k
          (fun hc => h (hvj.symm.trans hc))
      · rfl
      · exact Simulation.replaceVehicle_findVehicle_ne _ _ k
          (fun hc => h (hvj.symm.trans hc))
      · rfl

/-- Replacing a record keeps the identifier sequence of the store. -/
theorem Simulation.replaceVehicle_ids (s : Simulation) (u : Vehicle) :
    (s.replaceVehicle u).vehicles.map (fun w => w.vehicle_id) =
      s.vehicles.map (fun w => w.vehicle_id) :=
  map_id_replace s.vehicles u

/-- Archiving keeps the identifier sequence a sublist of the original. -/
theorem Simulation.remove_vehicle_ids_sublist (s : Simulation) (v : Vehicle) :
    ((s.remove_vehicle v).vehicles.map (fun w => w.vehicle_id)).Sublist
      (s.vehicles.map (fun w => w.vehicle_id)) := by
  simp only [Simulation.remove_vehicle]
  split_ifs
  · rw [(Simulation.detachFromLane_lists s v).1]
    exact (List.eraseP_sublist _).map _
  · rw [(Simulation.detachFromLane_lists s v).1]

/-- A transition keeps the identifier sequence a sublist of the original. -/
theorem Simulation.handle_road_transition_ids_sublist (s : Simulation) (v : Vehicle) :
    ((s.handle_road_transition v).vehicles.map (fun w => w.vehicle_id)).Sublist
      (s.vehicles.map (fun w => w.vehicle_id)) := by
  simp only [Simulation.handle_road_transition]
  split
  · exact List.Sublist.refl _
  · split_ifs
    · refine (Simulation.remove_vehicle_ids_sublist _ _).trans ?_
      rw [Simulation.replaceVehicle_ids]
    · split
      · rw [Simulation.replaceVehicle_ids]
      · split
        · rw [Simulation.replaceVehicle_ids, Simulation.replaceVehicle_ids]
        · rw [Simulation.replaceVehicle_ids, Simulation.replaceVehicle_ids]

/-- One end-of-road iteration keeps the identifier sequence a sublist. -/
theorem Simulation.end_of_road_one_ids_sublist (s : Simulation) (j : Nat) :
    ((s.end_of_road_one j).vehicles.map (fun w => w.vehicle_id)).Sublist
      (s.vehicles.map (fun w => w.vehicle_id)) := by
  simp only [Simulation.end_of_road_one]
  split
  · exact List.Sublist.refl _
  · split
    · exact List.Sublist.refl _
    · split_ifs
      · exact Simulation.handle_road_transition_ids_sublist s _
      · exact List.Sublist.refl _
      · rw [Simulation.replaceVehicle_ids]
      · exact List.Sublist.refl _

/-- The end-of-road loop keeps the identifier sequence a sublist, hence
keeps it duplicate-free. -/
theorem Simulation.end_of_road_fold_ids_sublist (ids : List Nat) :
    ∀ s : Simulation,
      ((ids.foldl Simulation.end_of_road_one s).vehicles.map (fun w => w.vehicle_id)).Sublist
        (s.vehicles.map (fun w => w.vehicle_id)) := by
  induction ids with
  | nil => exact fun s => List.Sublist.refl _
  | cons j rest ih =>
    intro s
    rw [List.foldl_cons]
    exact (ih (s.end_of_road_one j)).trans (Simulation.end_of_road_one_ids_sublist s j)

/-- The end-of-road loop does not touch the lights. -/
theorem Simulation.end_of_road_fold_lights (ids : List Nat) :
    ∀ s : Simulation,
      (ids.foldl Simulation.end_of_road_one s).road_network.lights =
        s.road_network.lights := by
  induction ids with
  | nil => exact fun s => rfl
  | cons j rest ih =>
    intro s
    rw [List.foldl_cons]
    exact (ih (s.end_of_road_one j)).trans (Simulation.end_of_road_one_lights s j)

/-- The end-of-road loop preserves every road-length lookup. -/
theorem Simulation.end_of_road_fold_road_length (ids : List Nat) :
    ∀ (s : Simulation) (rid' : Nat × Nat),
      ((ids.foldl Simulation.end_of_road_one s).road_network.get_road rid').map
          (fun x => x.length) =
        (s.road_network.get_road rid').map (fun x => x.length) := by
  induction ids with
  | nil => exact fun s rid' => rfl
  | cons j rest ih =>
    intro s rid'
    rw [List.foldl_cons]
    exact (ih (s.end_of_road_one j) rid').trans (Simulation.end_of_road_one_road_length s j rid')

/-- The end-of-road loop leaves lookups of unprocessed identifiers unchanged. -/
theorem Simulation.end_of_road_fold_findVehicle (ids : List Nat) (k : Nat) :
    ∀ s : Simulation, k ∉ ids →
      (ids.foldl Simulation.end_of_road_one s).findVehicle k = s.findVehicle k := by
  induction ids with
  | nil => exact fun s _ => rfl
  | cons j rest ih =>
    intro s hk
    rw [List.foldl_cons]
    have hji : j ≠ k := fun hc => hk (hc ▸ List.mem_cons_self j rest)
    exact (ih (s.end_of_road_one j) (fun hc => hk (List.mem_cons_of_mem j hc))).trans
      (Simulation.end_of_road_one_findVehicle_ne s j k hji)

/-- Over a store with duplicate-free identifiers, the lookup of a member's
identifier finds exactly that member. -/
theorem find_of_mem_nodup (l : List Vehicle) (v : Vehicle)
    (hnd : (l.map (fun w => w.vehicle_id)).Nodup) (hm : v ∈ l) :
    l.find? (fun w => w.vehicle_id = v.vehicle_id) = some v := by
  induction l with
  | nil => exact absurd hm (List.not_mem_nil v)
  | cons w tl ih =>
    rw [List.map_cons] at hnd
    rcases List.mem_cons.mp hm with rfl | hm'
    · exact List.find?_cons_of_pos _ (by simp)
    · have hw : w.vehicle_id ≠ v.vehicle_id := by
        intro hc
        exact (List.nodup_cons.mp hnd).1
          (hc ▸ List.mem_map_of_mem (fun w => w.vehicle_id) hm')
      rw [List.find?_cons_of_neg _ (by simpa using hw)]
      exact ih (List.nodup_cons.mp hnd).2 hm'

/-- With duplicate-free identifiers, any member carrying the looked-up
identifier is the record the lookup returns. -/
theorem eq_of_mem_find_nodup (l : List Vehicle) (v' u : Vehicle) (k : Nat)
    (hnd : (l.map (fun w => w.vehicle_id)).Nodup) (hm : v' ∈ l) (hid : v'.vehicle_id = k)
    (hfind : l.find? (fun w => w.vehicle_id = k) = some u) : v' = u := by
  have h1 : l.find? (fun w => w.vehicle_id = v'.vehicle_id) = some v' :=
    find_of_mem_nodup l v' hnd hm
  rw [hid] at h1
  rw [h1] at hfind
  exact Option.some.inj hfind

/-- The physics loop keeps the identifier sequence unchanged. -/
theorem Simulation.physics_one_ids (s : Simulation) (vid : Nat) :
    (s.physics_one vid).vehicles.map (fun w => w.vehicle_id) =
      s.vehicles.map (fun w => w.vehicle_id) := by
  simp only [Simulation.physics_one]
  split
  · rfl
  · exact Simulation.replaceVehicle_ids _ _

/-- The whole physics loop keeps the identifier sequence unchanged. -/
theorem Simulation.physics_fold_ids (ids : List Nat) :
    ∀ s : Simulation,
      ((ids.foldl Simulation.physics_one s).vehicles.map (fun w => w.vehicle_id)) =
        s.vehicles.map (fun w => w.vehicle_id) := by
  induction ids with
  | nil => exact fun s => rfl
  | cons j rest ih =>
    intro s
    rw [List.foldl_cons]
    exact (ih (s.physics_one j)).trans (Simulation.physics_one_ids s j)

/-- A non-GREEN verdict makes `_can_enter_intersection` deny entry. -/
theorem Simulation.can_enter_false_of_nonGreen (st : Simulation) (v : Vehicle)
    (hng : st.nonGreenRoad v.current_road) :
    st.can_enter_intersection v = false := by
  obtain ⟨tl, h1, h2⟩ := hng
  simp only [Simulation.can_enter_intersection, h1]
  exact decide_eq_false h2

/-- Processing a vehicle whose road's light is not GREEN either clamps it at
the stop line (zeroing speed, clamping a zero acceleration request) or, when
it has not reached the stop line, leaves it untouched; it never transitions. -/
theorem Simulation.end_of_road_one_nonGreen (st : Simulation) (k : Nat) (v : Vehicle)
    (road : Road) (hv : st.findVehicle k = some v)
    (hroad : st.road_network.get_road v.current_road = some road)
    (hng : st.nonGreenRoad v.current_road) :
    (st.end_of_road_one k).findVehicle k =
      some (if road.length - STOP_LINE_OFFSET ≤ v.position then
        ({ v with position := road.length - STOP_LINE_OFFSET, speed := 0 }).set_acceleration 0
      else v) := by
  have hvk : v.vehicle_id = k := by simpa using List.find?_some hv
  have hce := Simulation.can_enter_false_of_nonGreen st v hng
  simp only [Simulation.end_of_road_one, hv, hroad]
  by_cases hpos : road.length - STOP_LINE_OFFSET ≤ v.position
  · rw [if_pos hpos, if_pos hpos]
    rw [if_neg (by rw [hce]; exact Bool.false_ne_true)]
    exact Simulation.replaceVehicle_findVehicle_self st _ v k hv hvk
  · rw [if_neg hpos, if_neg hpos]
    exact hv

/-- C3 as amended: restricted to vehicles that do not transition roads during
the step.  At the end of every `Simulation.step`, every active vehicle that
finished the physics phase on a road whose controlling light does not report
GREEN is still on that road at position at most `road_length −
stop_line_offset`; when the clamp fired, its speed is zero and (for
nonnegative acceleration bounds) its acceleration is zero.  (A vehicle that
transitions through a GREEN intersection during the same step may land past
the stop line of its new road even when that road's light is not GREEN —
see the counterexample — which is the only deviation from the claim.) -/
theorem step_red_light_clamp (s : Simulation)
    (hids : (s.vehicles.map (fun w => w.vehicle_id)).Nodup) :
    ∀ v ∈ (Simulation.physics_pass (s.update_traffic_lights)).vehicles,
      ∀ road, (Simulation.physics_pass (s.update_traffic_lights)).road_network.get_road
          v.current_road = some road →
        (Simulation.physics_pass (s.update_traffic_lights)).nonGreenRoad v.current_road →
        ∀ v' ∈ (s.step).vehicles, v'.vehicle_id = v.vehicle_id →
          (v' = if road.length - STOP_LINE_OFFSET ≤ v.position then
              ({ v with position := road.length - STOP_LINE_OFFSET,
                        speed := 0 }).set_acceleration 0
            else v) ∧
          v'.position ≤ road.length - STOP_LINE_OFFSET ∧
          v'.current_road = v.current_road ∧
          (road.length - STOP_LINE_OFFSET ≤ v.position →
            v'.speed = 0 ∧
            (0 ≤ v.max_acceleration → 0 ≤ v.max_deceleration → v'.acceleration = 0)) := by
  intro v hvmem road hroad hng v' hv'mem hv'id
  set s1 := Simulation.physics_pass (s.update_traffic_lights) with hs1
  have hidseq : s1.vehicles.map (fun w => w.vehicle_id) =
      s.vehicles.map (fun w => w.vehicle_id) :=
    Simulation.physics_fold_ids _ _
  have hids1 : (s1.vehicles.map (fun w => w.vehicle_id)).Nodup := by
    rw [hidseq]; exact hids
  have hfind1 : s1.findVehicle v.vehicle_id = some v :=
    find_of_mem_nodup s1.vehicles v hids1 hvmem
  have hmemid : v.vehicle_id ∈ s1.vehicles.map (fun w => w.vehicle_id) :=
    List.mem_map_of_mem _ hvmem
  obtain ⟨l1, l2, hsplit⟩ := List.append_of_mem hmemid
  have hids1' := hids1
  rw [hsplit] at hids1'
  have hk_not_l1 : v.vehicle_id ∉ l1 := fun hc =>
    (List.disjoint_of_nodup_append hids1') hc (List.mem_cons_self _ _)
  have hk_not_l2 : v.vehicle_id ∉ l2 :=
    (List.nodup_cons.mp (List.nodup_append.mp hids1').2.1).1
  -- the state right before the vehicle is processed
  have hfoldA : (l1.foldl Simulation.end_of_road_one s1).findVehicle v.vehicle_id = some v :=
    (Simulation.end_of_road_fold_findVehicle l1 v.vehicle_id s1 hk_not_l1).trans hfind1
  have hA_len := Simulation.end_of_road_fold_road_length l1 s1 v.current_road
  rw [hroad] at hA_len
  rcases hAr : (l1.foldl Simulation.end_of_road_one s1).road_network.get_road v.current_road
    with _ | roadA
  · rw [hAr] at hA_len
    simp at hA_len
  · rw [hAr] at hA_len
    simp only [Option.map_some'] at hA_len
    have hA_len' : roadA.length = road.length := Option.some.inj hA_len
    have hngA : (l1.foldl Simulation.end_of_road_one s1).nonGreenRoad v.current_road := by
      obtain ⟨tl, hl1, hl2⟩ := hng
      refine ⟨tl, ?_, hl2⟩
      show ((l1.foldl Simulation.end_of_road_one s1).road_network.lights.find?
        (fun p => p.1 = v.current_road.2)).map (fun p => p.2) = some tl
      rw [Simulation.end_of_road_fold_lights l1 s1]
      exact hl1
    have hproc := Simulation.end_of_road_one_nonGreen
      (l1.foldl Simulation.end_of_road_one s1) v.vehicle_id v roadA hfoldA hAr hngA
    rw [hA_len'] at hproc
    have hfinal : (Simulation.end_of_road_pass s1).findVehicle v.vehicle_id =
        some (if road.length - STOP_LINE_OFFSET ≤ v.position then
          ({ v with position := road.length - STOP_LINE_OFFSET,
                    speed := 0 }).set_acceleration 0
        else v) := by
      show ((s1.vehicles.map (fun w => w.vehicle_id)).foldl
          Simulation.end_of_road_one s1).findVehicle v.vehicle_id = _
      rw [hsplit, List.foldl_append, List.foldl_cons]
      exact (Simulation.end_of_road_fold_findVehicle l2 v.vehicle_id _ hk_not_l2).trans hproc
    have hnd_final : ((Simulation.end_of_road_pass s1).vehicles.map
        (fun w => w.vehicle_id)).Nodup :=
      (Simulation.end_of_road_fold_ids_sublist _ s1).nodup hids1
    have hv'mem' : v' ∈ (Simulation.end_of_road_pass s1).vehicles := hv'mem
    have hv'eq : v' = (if road.length - STOP_LINE_OFFSET ≤ v.position then
        ({ v with position := road.length - STOP_LINE_OFFSET,
                  speed := 0 }).set_acceleration 0
      else v) :=
      eq_of_mem_find_nodup (Simulation.end_of_road_pass s1).vehicles v' _ v.vehicle_id
        hnd_final hv'mem' hv'id hfinal
    refine ⟨hv'eq, ?_, ?_, ?_⟩
    · rw [hv'eq]
      by_cases hpos : road.length - STOP_LINE_OFFSET ≤ v.position
      · rw [if_pos hpos]
        exact le_refl _
      · rw [if_neg hpos]
        exact (not_le.mp hpos).le
    · rw [hv'eq]
      by_cases hpos : road.length - STOP_LINE_OFFSET ≤ v.position
      · rw [if_pos hpos]
        rfl
      · rw [if_neg hpos]
    · intro hpos
      rw [hv'eq, if_pos hpos]
      refine ⟨rfl, fun hma hmd => ?_⟩
      show max (-v.max_deceleration) (min 0 v.max_acceleration) = 0
      rw [min_eq_left hma, max_eq_right (neg_nonpos.mpr hmd)]

/-- Counterexample to C3: in the concrete state `exC3` the vehicle passes
through a GREEN (light-free) intersection and lands on a short road whose own
light reports RED, ending the step past that road's stop line — so it is not
true that at the end of every step every vehicle on a non-GREEN road is at or
behind the stop line. -/
theorem step_red_light_clamp_counterexample :
    ∃ v' ∈ (Simulation.step exC3).vehicles,
      Simulation.nonGreenRoad (Simulation.step exC3) v'.current_road ∧
      ∃ road, (Simulation.step exC3).road_network.get_road v'.current_road = some road ∧
        ¬ (v'.position ≤ road.length - STOP_LINE_OFFSET) := by
  have h1 : exC3.update_traffic_lights = exC3U := by
    norm_num [Simulation.update_traffic_lights, TrafficLight.update, exC3, exC3U, exC3light,
      exC3lightU, TrafficLight.init]
  have hlight : Simulation.check_traffic_light exC3U exC3v = none := by
    norm_num [Simulation.check_traffic_light, RoadNetwork.get_road, RoadNetwork.light_at,
      exC3U, exC3, exC3road1, exC3road2, exC3v, Vehicle.init,
      INTERSECTION_DETECTION_DISTANCE, List.find?]
  have hlead : Simulation.get_leading_vehicle exC3U exC3v = none := by
    norm_num [Simulation.get_leading_vehicle, Simulation.laneVehicles, RoadNetwork.get_road,
      Simulation.findVehicle, sortByPosition, insertByPosition, exC3U, exC3, exC3road1,
      exC3road2, exC3v, Vehicle.init, List.find?, List.filterMap, List.getD]
  have hacc : Simulation.compute_acceleration exC3U exC3v = 0 := by
    simp only [Simulation.compute_acceleration, hlead, hlight]
    norm_num [exC3v, Vehicle.init, IDM_DELTA]
  have hnew : (exC3v.set_acceleration (Simulation.compute_acceleration exC3U exC3v)).update
      exC3U.dt = exC3vP := by
    rw [hacc]
    norm_num [Vehicle.set_acceleration, Vehicle.update, exC3v, exC3vP, Vehicle.init, exC3U,
      exC3, STOP_THRESHOLD, min_def, max_def]
  have h2 : Simulation.physics_one exC3U 0 = exC3P := by
    have hf : exC3U.findVehicle 0 = some exC3v := rfl
    simp only [Simulation.physics_one, hf]
    rw [hnew]
    norm_num [Simulation.replaceVehicle, exC3U, exC3, exC3P, exC3v, exC3vP, Vehicle.init]
  have hphys : Simulation.physics_pass (exC3.update_traffic_lights) = exC3P := by
    rw [h1]
    have hone : Simulation.physics_pass exC3U = Simulation.physics_one exC3U 0 := rfl
    rw [hone, h2]
  have h3 : Simulation.end_of_road_one exC3P 0 = exC3F := by
    have hf : exC3P.findVehicle 0 = some exC3vP := rfl
    have hr : exC3P.road_network.get_road exC3vP.current_road = some exC3road1 := rfl
    simp only [Simulation.end_of_road_one, hf, hr]
    rw [if_pos (by norm_num [exC3road1, STOP_LINE_OFFSET, exC3vP, exC3v, Vehicle.init])]
    rw [if_pos (show exC3P.can_enter_intersection exC3vP = true from rfl)]
    rw [if_pos (by norm_num [exC3road1, exC3vP, exC3v, Vehicle.init])]
    norm_num [Simulation.handle_road_transition, Simulation.replaceVehicle,
      RoadNetwork.set_road, RoadNetwork.get_road, Road.removeFromLane, Road.appendToLane,
      exC3P, exC3U, exC3, exC3F, exC3road1, exC3road2, exC3road1E, exC3road2F, exC3v,
      exC3vP, exC3vF, Vehicle.init, List.find?, List.getD, max_def]
  have hpass : (exC3.update_traffic_lights).physics_pass.end_of_road_pass = exC3F := by
    rw [hphys]
    have hone : Simulation.end_of_road_pass exC3P = Simulation.end_of_road_one exC3P 0 := rfl
    rw [hone, h3]
  have hstep : Simulation.step exC3 = { exC3F with time := 1 } := by
    simp only [Simulation.step, hpass]
    norm_num [exC3F]
  refine ⟨exC3vF, ?_, ?_, exC3road2F, ?_, ?_⟩
  · rw [hstep]
    exact List.mem_cons_self _ _
  · rw [hstep]
    exact ⟨exC3lightU, rfl, by decide⟩
  · rw [hstep]
    rfl
  · norm_num [exC3vF, exC3vP, exC3v, Vehicle.init, exC3road2F, STOP_LINE_OFFSET]

/-- Witness for the amended C3: in the concrete state `exW` the stopped
vehicle 1 m past the stop line of a RED road is clamped back to the stop
line with zero speed and acceleration at the end of the step. -/
theorem step_red_light_clamp_witness :
    exWvC ∈ (Simulation.step exW).vehicles ∧
    Simulation.nonGreenRoad (Simulation.physics_pass (exW.update_traffic_lights))
      ((0 : Nat), (1 : Nat)) ∧
    exWvC.position ≤ exWroad.length - STOP_LINE_OFFSET ∧
    exWvC.speed = 0 ∧ exWvC.acceleration = 0 := by
  have h1 : exW.update_traffic_lights = exWU := by
    norm_num [Simulation.update_traffic_lights, TrafficLight.update, exW, exWU, exWlight,
      exWlightU, TrafficLight.init]
  have hlight : Simulation.check_traffic_light exWU exWv = some 0 := by
    norm_num [Simulation.check_traffic_light, RoadNetwork.get_road, RoadNetwork.light_at,
      TrafficLight.get_state_for_road, Phase.is_green, TrafficLight.current_phase,
      exWU, exW, exWroad, exWv, exWlight, exWlightU, TrafficLight.init, Vehicle.init,
      INTERSECTION_DETECTION_DISTANCE, STOP_LINE_OFFSET, List.find?, max_def]
    exact fun h => absurd h (by decide)
  have hlead : Simulation.get_leading_vehicle exWU exWv = none := by
    norm_num [Simulation.get_leading_vehicle, Simulation.laneVehicles, RoadNetwork.get_road,
      Simulation.findVehicle, sortByPosition, insertByPosition, exWU, exW, exWroad, exWv,
      Vehicle.init, List.find?, List.filterMap, List.getD]
  have hacc : Simulation.compute_acceleration exWU exWv = -399 := by
    simp only [Simulation.compute_acceleration, hlead, hlight, idm_acceleration]
    norm_num [exWv, Vehicle.init, IDM_DELTA, max_def]
  have hnew : (exWv.set_acceleration (Simulation.compute_acceleration exWU exWv)).update
      exWU.dt = exWvP := by
    rw [hacc]
    norm_num [Vehicle.set_acceleration, Vehicle.update, exWv, exWvP, Vehicle.init, exWU,
      exW, STOP_THRESHOLD, min_def, max_def]
  have h2 : Simulation.physics_one exWU 0 = exWP := by
    have hf : exWU.findVehicle 0 = some exWv := rfl
    simp only [Simulation.physics_one, hf]
    rw [hnew]
    norm_num [Simulation.replaceVehicle, exWU, exW, exWP, exWv, exWvP, Vehicle.init]
  have hphys : Simulation.physics_pass (exW.update_traffic_lights) = exWP := by
    rw [h1]
    have hone : Simulation.physics_pass exWU = Simulation.physics_one exWU 0 := rfl
    rw [hone, h2]
  have h3 : Simulation.end_of_road_one exWP 0 = { exWP with vehicles := [exWvC] } := by
    have hf : exWP.findVehicle 0 = some exWvP := rfl
    have hr : exWP.road_network.get_road exWvP.current_road = some exWroad := rfl
    simp only [Simulation.end_of_road_one, hf, hr]
    rw [if_pos (by norm_num [exWroad, STOP_LINE_OFFSET, exWvP, exWv, Vehicle.init])]
    rw [if_neg (by decide)]
    norm_num [Simulation.replaceVehicle, Vehicle.set_acceleration, exWP, exWU, exW, exWv,
      exWvP, exWvC, Vehicle.init, exWroad, STOP_LINE_OFFSET, min_def, max_def]
  have hmem : exWvC ∈ (Simulation.step exW).vehicles := by
    show exWvC ∈ ((exW.update_traffic_lights).physics_pass.end_of_road_pass).vehicles
    rw [hphys]
    have hone : Simulation.end_of_road_pass exWP = Simulation.end_of_road_one exWP 0 := rfl
    rw [hone, h3]
    exact List.mem_cons_self _ _
  have hng : Simulation.nonGreenRoad (Simulation.physics_pass (exW.update_traffic_lights))
      ((0 : Nat), (1 : Nat)) := by
    rw [hphys]
    exact ⟨exWlightU, rfl, by decide⟩
  have hvmem : exWvP ∈ (Simulation.physics_pass (exW.update_traffic_lights)).vehicles := by
    rw [hphys]
    exact List.mem_cons_self _ _
  have hroad' : (Simulation.physics_pass (exW.update_traffic_lights)).road_network.get_road
      exWvP.current_road = some exWroad := by
    rw [hphys]
    rfl
  have hng' : (Simulation.physics_pass (exW.update_traffic_lights)).nonGreenRoad
      exWvP.current_road := hng
  have main := step_red_light_clamp exW (by norm_num [exW, exWv, Vehicle.init])
    exWvP hvmem exWroad hroad' hng' exWvC hmem rfl
  obtain ⟨-, hposle, -, himp⟩ := main
  have hfired := himp (by norm_num [exWroad, STOP_LINE_OFFSET, exWvP, exWv, Vehicle.init])
  exact ⟨hmem, hng, hposle, hfired.1,
    hfired.2 (by norm_num [exWvP, exWv, Vehicle.init]) (by norm_num [exWvP, exWv, Vehicle.init])⟩

end RoadGraph
